import Mathlib

/-!
# informixdb `ext/dbi.c`: tagged containers for database column values

A shallow embedding of `dbi.c` over an explicit object heap.

* A `PyObject *` is an address (`Ptr`); address `0` is the C `NULL` pointer.
* The heap is a list of objects; the object at address `p + 1` is `heap[p]`.
* Every function that dereferences a pointer returns an `Option`; `none`
  stands for undefined behaviour of the C program (dereferencing `NULL`,
  a dangling pointer, or calling through a `NULL` function pointer).
* The interpreter's error indicator (`PyErr_SetString`, `PyErr_Occurred`)
  is the field `err` of the state.
* A `char *` argument is the `String` of its characters before the
  terminating zero byte.
* What the Python runtime and the C library supply (the method tables of
  the host types, `PyNumber_Check`, `PyNumber_Int`, `ctime`, ...) is a
  parameter `θ : Host`.  `hostCPython` is one concrete host, following the
  CPython 1.5.2 sources for `int`, `long` and `list` objects and the
  C standard's `asctime` algorithm in the UTC time zone.
* `dbiDealloc` and `initdbi` take no part in the properties below and are
  not embedded.
* Allocation (`PyObject_NEW`) always succeeds; memory exhaustion is not
  modelled.
-/

namespace Dbi

/-! ## Objects and the heap -/

/-- A `PyObject *`: the address of an object, `0` for `NULL`. -/
abbrev Ptr := Nat

/-- The C `NULL` pointer. -/
def NULL : Ptr := 0

/-- Type objects (`PyTypeObject`), by identity.  The first three are the
static type objects of `dbi.c`; the others belong to the host. -/
inductive PyTypeObject
  | DbiDate_Type
  | DbiRaw_Type
  | DbiRowId_Type
  | PyInt_Type
  | PyLong_Type
  | PyString_Type
  | PyTuple_Type
  | PyList_Type
  | PyCFunction_Type
  | other (id : Nat)
  deriving DecidableEq, Repr

/-- The exception set in the interpreter's error indicator. -/
inductive PyExc
  | TypeError
  | AttributeError
  | OverflowError
  | SystemError
  | DbiDataError
  deriving DecidableEq, Repr

/-- The part of an object that follows `PyObject_HEAD`. -/
inductive Body
  /-- The struct `DbiContainer`: the single field `objectOf`. -/
  | container (objectOf : Ptr)
  /-- The struct `PyIntObject`: the C `long` field `ob_ival`. -/
  | int (ob_ival : Int)
  /-- The struct `PyLongObject`: the arbitrary-precision value of its digits. -/
  | long (value : Int)
  /-- The struct `PyStringObject`: `ob_size` bytes `ob_sval`, zero bytes allowed. -/
  | string (ob_sval : List Char)
  /-- The struct `PyTupleObject`: the items `ob_item`. -/
  | tuple (ob_item : List Ptr)
  /-- The struct `PyListObject`: the items `ob_item`. -/
  | list (ob_item : List Ptr)
  /-- The struct `PyCFunctionObject`: the method name of `m_ml` and `m_self`. -/
  | cfunction (ml_name : String) (m_self : Ptr)
  /-- An object of some other host type. -/
  | data (words : List Int)
  deriving DecidableEq, Repr

/-- An object: `PyObject_HEAD` (`ob_refcnt`, `ob_type`) and its body. -/
structure PyObject where
  ob_refcnt : Int
  ob_type : PyTypeObject
  body : Body
  deriving DecidableEq, Repr

/-- The interpreter state: the object heap and the error indicator. -/
structure State where
  heap : List PyObject
  err : Option PyExc
  deriving DecidableEq, Repr

/-- Dereference a pointer: `none` for `NULL` and for dangling pointers. -/
def State.deref (s : State) : Ptr → Option PyObject
  | 0 => none
  | p + 1 => s.heap[p]?

/-- Overwrite the object at address `p`. -/
def State.store (s : State) (p : Ptr) (o : PyObject) : State :=
  match p with
  | 0 => s
  | q + 1 => { s with heap := s.heap.set q o }

/-- Model of `PyErr_SetString(exc, ...)`: set the error indicator. -/
def PyErr_SetString (s : State) (exc : PyExc) : State :=
  { s with err := some exc }

/-- Model of `PyObject_NEW(T, ty)`: a fresh object of type `ty` with reference count
one.  `body` is the content of the uninitialised part. -/
def PyObject_NEW (s : State) (ty : PyTypeObject) (body : Body) : Ptr × State :=
  (s.heap.length + 1, { s with heap := s.heap ++ [⟨1, ty, body⟩] })

/-- Model of `Py_INCREF(p)`: undefined when `p` is `NULL` or dangling. -/
def Py_INCREF (s : State) (p : Ptr) : Option State :=
  match s.deref p with
  | some o => some (s.store p { o with ob_refcnt := o.ob_refcnt + 1 })
  | none => none

/-- Model of `Py_XINCREF(p)`: as `Py_INCREF`, and nothing for `NULL`. -/
def Py_XINCREF (s : State) (p : Ptr) : Option State :=
  if p = NULL then some s else Py_INCREF s p

/-- Model of `PyArg_ParseTuple(args, "O", &ob)`.  The inner option is the C result:
`some ob` when it returns 1 and stores the single item in `ob`, `none` when
it returns 0 with an exception set. -/
def PyArg_ParseTuple_O (s : State) (args : Ptr) : Option (Option Ptr × State) :=
  match s.deref args with
  | none => none
  | some o =>
    if o.ob_type = .PyTuple_Type then
      match o.body with
      | .tuple [ob] => some (some ob, s)
      | .tuple _ => some (none, PyErr_SetString s .TypeError)
      | _ => none
    else some (none, PyErr_SetString s .SystemError)

/-! ## `dbi.c` -/

/-- Model of `dbiValue(o)`: `((DbiContainer *) o)->objectOf`. -/
def dbiValue (s : State) (o : Ptr) : Option Ptr :=
  match s.deref o with
  | some ⟨_, _, .container objectOf⟩ => some objectOf
  | _ => none

/-- The assignment `dbt->objectOf = ob`. -/
def setObjectOf (s : State) (dbt : Ptr) (ob : Ptr) : Option State :=
  match s.deref dbt with
  | some ⟨rc, ty, .container _⟩ => some (s.store dbt ⟨rc, ty, .container ob⟩)
  | _ => none

/-- Model of `makeDbiTypeTP(args, ty)`. -/
def makeDbiTypeTP (s : State) (args : Ptr) (ty : PyTypeObject) : Option (Ptr × State) :=
  match PyArg_ParseTuple_O s args with
  | none => none
  | some (none, s1) => some (NULL, s1)
  | some (some ob, s1) =>
    let (dbt, s2) := PyObject_NEW s1 ty (.container NULL)
    match setObjectOf s2 dbt ob with
    | none => none
    | some s3 =>
      match Py_INCREF s3 ob with
      | none => none
      | some s4 => some (dbt, s4)

/-- The method table `noMethods` of `dbiGetAttr`: only the sentinel entry. -/
def noMethods : List String := []

/-! ## The host: what the Python runtime and the C library supply -/

/-- The C type `unaryfunc`. -/
abbrev unaryfunc := Ptr → State → Option (Ptr × State)
/-- The C type `binaryfunc`. -/
abbrev binaryfunc := Ptr → Ptr → State → Option (Ptr × State)
/-- The C type `cmpfunc`. -/
abbrev cmpfunc := Ptr → Ptr → State → Option (Int × State)
/-- The C type `getattrfunc`. -/
abbrev getattrfunc := Ptr → String → State → Option (Ptr × State)

/-- The struct `PyNumberMethods`: the slots `dbi.c` calls; `none` is a `NULL` slot. -/
structure PyNumberMethods where
  nb_add : Option binaryfunc
  nb_subtract : Option binaryfunc
  nb_int : Option unaryfunc
  nb_long : Option unaryfunc
  nb_float : Option unaryfunc
  nb_oct : Option unaryfunc
  nb_hex : Option unaryfunc

/-- The slots of a type object that `dbi.c` and the properties below read. -/
structure TypeSlots where
  tp_getattr : Option getattrfunc
  tp_compare : Option cmpfunc
  tp_as_number : Option PyNumberMethods

/-- The host environment of `dbi.c`. -/
structure Host where
  /-- The slots of each type object. -/
  tp : PyTypeObject → TypeSlots
  /-- The function `PyNumber_Check(o)`. -/
  PyNumber_Check : State → Ptr → Bool
  /-- The function `PyNumber_Int(o)`: the integer conversion, `NULL` on failure. -/
  PyNumber_Int : unaryfunc
  /-- The function `PyInt_AsLong(o)` for an `o` that is not an `int` object. -/
  PyInt_AsLong_other : Ptr → State → Option (Int × State)
  /-- The function `ctime(&t)`: the bytes of the static buffer the result points to,
  `none` when `ctime` returns `NULL`. -/
  ctime : Int → Option (List Char)
  /-- The function `listmethods(methods)`, the value of the attribute `__methods__`. -/
  listmethods : List String → State → Option (Ptr × State)
  /-- The content of `n` bytes of fresh, uninitialised memory. -/
  uninitialised : Nat → List Char

/-- Model of `PyCFunction_New(ml, self)`: a new built-in method object bound to
`self`. -/
def PyCFunction_New (ml_name : String) (self : Ptr) (s : State) : Option (Ptr × State) :=
  let (op, s1) := PyObject_NEW s .PyCFunction_Type (.cfunction ml_name self)
  match Py_XINCREF s1 self with
  | none => none
  | some s2 => some (op, s2)

/-- Model of `Py_FindMethod(methods, self, name)`. -/
def Py_FindMethod (θ : Host) (methods : List String) (self : Ptr) (name : String)
    (s : State) : Option (Ptr × State) :=
  if name = "__methods__" then θ.listmethods methods s
  else
    match methods.find? (fun ml_name => ml_name = name) with
    | some ml_name => PyCFunction_New ml_name self s
    | none => some (NULL, PyErr_SetString s .AttributeError)

/-- Model of `PyObject_GetAttrString(v, name)`: the attribute resolution of `v`'s own
type. -/
def PyObject_GetAttrString (θ : Host) (v : Ptr) (name : String) (s : State) :
    Option (Ptr × State) :=
  match s.deref v with
  | none => none
  | some o =>
    match (θ.tp o.ob_type).tp_getattr with
    | none => some (NULL, PyErr_SetString s .AttributeError)
    | some f => f v name s

/-- Model of `PyInt_AsLong(op)`. -/
def PyInt_AsLong (θ : Host) (op : Ptr) (s : State) : Option (Int × State) :=
  match s.deref op with
  | some ⟨_, .PyInt_Type, .int ob_ival⟩ => some (ob_ival, s)
  | _ => θ.PyInt_AsLong_other op s

/-- Model of `PyString_FromStringAndSize(str, size)`: a new string object holding the
first `size` bytes at `str`; uninitialised content when `str` is `NULL`;
undefined when fewer than `size` bytes can be read at `str`. -/
def PyString_FromStringAndSize (θ : Host) (str : Option (List Char)) (size : Nat)
    (s : State) : Option (Ptr × State) :=
  match str with
  | none => some (PyObject_NEW s .PyString_Type (.string (θ.uninitialised size)))
  | some buf =>
    if size ≤ buf.length then
      some (PyObject_NEW s .PyString_Type (.string (buf.take size)))
    else none

/-- Model of `dbiGetAttr(self, name)`. -/
def dbiGetAttr (θ : Host) (self : Ptr) (name : String) (s : State) :
    Option (Ptr × State) :=
  if name = "value" then
    match dbiValue s self with
    | none => none
    | some val =>
      match Py_INCREF s val with
      | none => none
      | some s1 => some (val, s1)
  else Py_FindMethod θ noMethods self name s

/-- Model of `dateStr(o)`, the branch compiled without `DATETIMEFIX`. -/
def dateStr (θ : Host) (o : Ptr) (s : State) : Option (Ptr × State) :=
  match dbiValue s o with
  | none => none
  | some v =>
    match PyInt_AsLong θ v s with
    | none => none
    | some (l, s1) => PyString_FromStringAndSize θ (θ.ctime l) 24 s1

/-- Model of `rawStr(o)`. -/
def rawStr (o : Ptr) (s : State) : Option (Ptr × State) :=
  match dbiValue s o with
  | none => none
  | some val =>
    match Py_INCREF s val with
    | none => none
    | some s1 => some (val, s1)

/-- The macro `delg(a)`: `dbiValue(a)->ob_type->tp_as_number`. -/
def delg (θ : Host) (s : State) (a : Ptr) : Option PyNumberMethods :=
  match dbiValue s a with
  | none => none
  | some v =>
    match s.deref v with
    | none => none
    | some o => (θ.tp o.ob_type).tp_as_number

/-- A call `delg(a)->slot(dbiValue(a))` of a unary slot. -/
def delgUnary (θ : Host) (slot : PyNumberMethods → Option unaryfunc) (a : Ptr)
    (s : State) : Option (Ptr × State) :=
  match delg θ s a with
  | none => none
  | some m =>
    match slot m, dbiValue s a with
    | some f, some v => f v s
    | _, _ => none

/-- A call `delg(a)->slot(dbiValue(a), b)` of a binary slot. -/
def delgBinary (θ : Host) (slot : PyNumberMethods → Option binaryfunc) (a b : Ptr)
    (s : State) : Option (Ptr × State) :=
  match delg θ s a with
  | none => none
  | some m =>
    match slot m, dbiValue s a with
    | some f, some v => f v b s
    | _, _ => none

/-- Model of `dt_nb_add(a, b)`. -/
def dt_nb_add (θ : Host) (a b : Ptr) (s : State) : Option (Ptr × State) :=
  delgBinary θ (fun m => m.nb_add) a b s

/-- Model of `dt_nb_subtract(a, b)`. -/
def dt_nb_subtract (θ : Host) (a b : Ptr) (s : State) : Option (Ptr × State) :=
  delgBinary θ (fun m => m.nb_subtract) a b s

/-- Model of `dt_nb_int(a)`. -/
def dt_nb_int (θ : Host) (a : Ptr) (s : State) : Option (Ptr × State) :=
  delgUnary θ (fun m => m.nb_int) a s

/-- Model of `dt_nb_long(a)`. -/
def dt_nb_long (θ : Host) (a : Ptr) (s : State) : Option (Ptr × State) :=
  delgUnary θ (fun m => m.nb_long) a s

/-- Model of `dt_nb_float(a)`. -/
def dt_nb_float (θ : Host) (a : Ptr) (s : State) : Option (Ptr × State) :=
  delgUnary θ (fun m => m.nb_float) a s

/-- Model of `dt_nb_oct(a)`. -/
def dt_nb_oct (θ : Host) (a : Ptr) (s : State) : Option (Ptr × State) :=
  delgUnary θ (fun m => m.nb_oct) a s

/-- Model of `dt_nb_hex(a)`. -/
def dt_nb_hex (θ : Host) (a : Ptr) (s : State) : Option (Ptr × State) :=
  delgUnary θ (fun m => m.nb_hex) a s

/-- Model of `dt_cmp(a, b)`: `dbiValue(a)->ob_type->tp_compare(a, b)`. -/
def dt_cmp (θ : Host) (a b : Ptr) (s : State) : Option (Int × State) :=
  match dbiValue s a with
  | none => none
  | some v =>
    match s.deref v with
    | none => none
    | some o =>
      match (θ.tp o.ob_type).tp_compare with
      | none => none
      | some f => f a b s

/-- Model of `dt_nb_coerce(&v, &w)`: the result is the returned `int` and the values
of `*pv` and `*pw` on return. -/
def dt_nb_coerce (θ : Host) (pv pw : Ptr) (s : State) : Option (Int × Ptr × Ptr × State) :=
  if θ.PyNumber_Check s pw then
    let (dbt, s1) := PyObject_NEW s .DbiDate_Type (.container NULL)
    match θ.PyNumber_Int pw s1 with
    | none => none
    | some (r, s2) =>
      match setObjectOf s2 dbt r with
      | none => none
      | some s3 =>
        match Py_INCREF s3 pv with
        | none => none
        | some s4 => some (0, pv, dbt, s4)
  else some (1, pv, pw, s)

/-- Model of `makeDate(self, args)`. -/
def makeDate (_self args : Ptr) (s : State) : Option (Ptr × State) :=
  makeDbiTypeTP s args .DbiDate_Type

/-- Model of `makeRaw(self, args)`. -/
def makeRaw (_self args : Ptr) (s : State) : Option (Ptr × State) :=
  makeDbiTypeTP s args .DbiRaw_Type

/-- Model of `makeRowId(self, args)`. -/
def makeRowId (_self args : Ptr) (s : State) : Option (Ptr × State) :=
  makeDbiTypeTP s args .DbiRowId_Type

/-- Model of `makeDbiType(o, ty)`. -/
def makeDbiType (s : State) (o : Ptr) (ty : PyTypeObject) : Option (Ptr × State) :=
  let (dbt, s1) := PyObject_NEW s ty (.container NULL)
  match setObjectOf s1 dbt o with
  | none => none
  | some s2 => some (dbt, s2)

/-- Model of `dbiMakeDate(contents)`. -/
def dbiMakeDate (contents : Ptr) (s : State) : Option (Ptr × State) :=
  makeDbiType s contents .DbiDate_Type

/-- Model of `dbiMakeRaw(contents)`. -/
def dbiMakeRaw (contents : Ptr) (s : State) : Option (Ptr × State) :=
  makeDbiType s contents .DbiRaw_Type

/-- Model of `dbiMakeRowId(contents)`. -/
def dbiMakeRowId (contents : Ptr) (s : State) : Option (Ptr × State) :=
  makeDbiType s contents .DbiRowId_Type

/-- Model of `dbiIsDate(o)`: `o->ob_type == &DbiDate_Type`. -/
def dbiIsDate (s : State) (o : Ptr) : Option Bool :=
  match s.deref o with
  | none => none
  | some ob => some (decide (ob.ob_type = .DbiDate_Type))

/-- Model of `dbiIsRaw(o)`: `o->ob_type == &DbiRaw_Type`. -/
def dbiIsRaw (s : State) (o : Ptr) : Option Bool :=
  match s.deref o with
  | none => none
  | some ob => some (decide (ob.ob_type = .DbiRaw_Type))

/-- Model of `dbiIsRowId(o)`: `o->ob_type == &DbiRowId_Type`. -/
def dbiIsRowId (s : State) (o : Ptr) : Option Bool :=
  match s.deref o with
  | none => none
  | some ob => some (decide (ob.ob_type = .DbiRowId_Type))

/-! ## A concrete host: CPython 1.5.2, 64-bit `long`, UTC

Used for the concrete instances below.  The cache of small `int` objects
is not modelled: `PyInt_FromLong` always allocates.  Slots whose behaviour
is not modelled are present and yield `none`. -/

namespace CPython

/-- The constant `LONG_MAX` for a 64-bit `long`. -/
def LONG_MAX : Int := 9223372036854775807

/-- The constant `LONG_MIN` for a 64-bit `long`. -/
def LONG_MIN : Int := -9223372036854775808

/-- Model of `PyInt_FromLong(x)`. -/
def PyInt_FromLong (x : Int) (s : State) : Ptr × State :=
  PyObject_NEW s .PyInt_Type (.int x)

/-- Model of `PyLong_FromLong(x)`. -/
def PyLong_FromLong (x : Int) (s : State) : Ptr × State :=
  PyObject_NEW s .PyLong_Type (.long x)

/-- The read `((PyIntObject *) v)->ob_ival`: the machine word that follows
`PyObject_HEAD`.  In a `DbiContainer` that word is the field `objectOf`, a
pointer of the size of a `long`, so the read yields the address stored
there. -/
def ob_ival (s : State) (v : Ptr) : Option Int :=
  match s.deref v with
  | some ⟨_, _, .int i⟩ => some i
  | some ⟨_, _, .container objectOf⟩ => some (Int.ofNat objectOf)
  | _ => none

/-- Model of `int_compare(v, w)`: `(i < j) ? -1 : (i > j) ? 1 : 0` on the two
`ob_ival` fields. -/
def int_compare : cmpfunc := fun v w s =>
  match ob_ival s v, ob_ival s w with
  | some i, some j => some (if i < j then -1 else if i > j then 1 else 0, s)
  | _, _ => none

/-- The overflow exit shared by the `int` operators: `err_ovf`. -/
def int_result (x : Int) (s : State) : Option (Ptr × State) :=
  if LONG_MIN ≤ x ∧ x ≤ LONG_MAX then some (PyInt_FromLong x s)
  else some (NULL, PyErr_SetString s .OverflowError)

/-- Model of `int_add(v, w)`. -/
def int_add : binaryfunc := fun v w s =>
  match ob_ival s v, ob_ival s w with
  | some a, some b => int_result (a + b) s
  | _, _ => none

/-- Model of `int_sub(v, w)`. -/
def int_sub : binaryfunc := fun v w s =>
  match ob_ival s v, ob_ival s w with
  | some a, some b => int_result (a - b) s
  | _, _ => none

/-- Model of `int_int(v)`: `Py_INCREF(v); return v`. -/
def int_int : unaryfunc := fun v s =>
  match Py_INCREF s v with
  | some s1 => some (v, s1)
  | none => none

/-- Model of `int_long(v)`: `PyLong_FromLong(v->ob_ival)`. -/
def int_long : unaryfunc := fun v s =>
  match ob_ival s v with
  | some x => some (PyLong_FromLong x s)
  | none => none

/-- The digits of `sprintf("%lo")` and `sprintf("%lx")`: the value as an
`unsigned long`. -/
def ulongDigits (base : Nat) (x : Int) : List Char :=
  Nat.toDigits base (x % 18446744073709551616).toNat

/-- Model of `int_oct(v)`: `"0"` for zero, else `sprintf(buf, "0%lo", x)`. -/
def int_oct : unaryfunc := fun v s =>
  match ob_ival s v with
  | some x =>
    some (PyObject_NEW s .PyString_Type
      (.string (if x = 0 then ['0'] else '0' :: ulongDigits 8 x)))
  | none => none

/-- Model of `int_hex(v)`: `sprintf(buf, "0x%lx", x)`. -/
def int_hex : unaryfunc := fun v s =>
  match ob_ival s v with
  | some x =>
    some (PyObject_NEW s .PyString_Type (.string ('0' :: 'x' :: ulongDigits 16 x)))
  | none => none

/-- A slot that is present but whose behaviour is not modelled. -/
def unmodelledUnary : unaryfunc := fun _ _ => none

/-- A binary slot that is present but whose behaviour is not modelled. -/
def unmodelledBinary : binaryfunc := fun _ _ _ => none

/-- A comparison slot that is present but whose behaviour is not modelled. -/
def unmodelledCmp : cmpfunc := fun _ _ _ => none

/-- A `tp_getattr` slot that is present but whose behaviour is not modelled. -/
def unmodelledGetattr : getattrfunc := fun _ _ _ => none

/-- The table `int_as_number`. -/
def int_as_number : PyNumberMethods where
  nb_add := some int_add
  nb_subtract := some int_sub
  nb_int := some int_int
  nb_long := some int_long
  nb_float := some unmodelledUnary
  nb_oct := some int_oct
  nb_hex := some int_hex

/-- Model of `long_int(v)`: `x = PyLong_AsLong(v)`, which raises
`OverflowError` ("long int too long to convert") when the value does not
fit a C `long`; then `if (PyErr_Occurred()) return NULL;` and
`return PyInt_FromLong(x)`. -/
def long_int : unaryfunc := fun v s =>
  match s.deref v with
  | some ⟨_, _, .long x⟩ =>
    let s1 := if LONG_MIN ≤ x ∧ x ≤ LONG_MAX then s else PyErr_SetString s .OverflowError
    if s1.err.isSome then some (NULL, s1) else some (PyInt_FromLong x s1)
  | _ => none

/-- Model of `long_long(v)`: `Py_INCREF(v); return v`. -/
def long_long : unaryfunc := fun v s =>
  match Py_INCREF s v with
  | some s1 => some (v, s1)
  | none => none

/-- The table `long_as_number`. -/
def long_as_number : PyNumberMethods where
  nb_add := some unmodelledBinary
  nb_subtract := some unmodelledBinary
  nb_int := some long_int
  nb_long := some long_long
  nb_float := some unmodelledUnary
  nb_oct := some unmodelledUnary
  nb_hex := some unmodelledUnary

/-- The names of `list_methods`. -/
def list_methods : List String :=
  ["append", "insert", "extend", "pop", "remove", "index", "count", "reverse", "sort"]

/-- Model of `listmethods(ml)`: a new list of new string objects, one per method
name, sorted.  The exit taken when an exception is pending is not
modelled. -/
def listmethods (methods : List String) (s : State) : Option (Ptr × State) :=
  match s.err with
  | some _ => none
  | none =>
    let (v, s1) := PyObject_NEW s .PyList_Type (.list [])
    let names := methods.insertionSort (fun a b => a ≤ b)
    let s2 := names.foldl
      (fun st n => (PyObject_NEW st .PyString_Type (.string n.data)).2) s1
    let items := (List.range names.length).map (fun i => v + 1 + i)
    some (v, s2.store v ⟨1, .PyList_Type, .list items⟩)

/-- A host that supplies only `listmethods`, for the attribute functions
that the type table below refers to; they read no other field. -/
def base : Host where
  tp := fun _ => ⟨none, none, none⟩
  PyNumber_Check := fun _ _ => false
  PyNumber_Int := unmodelledUnary
  PyInt_AsLong_other := fun _ _ => none
  ctime := fun _ => none
  listmethods := listmethods
  uninitialised := fun n => List.replicate n (Char.ofNat 0)

/-- Model of `list_getattr(f, name)`: `Py_FindMethod(list_methods, f, name)`. -/
def list_getattr : getattrfunc := fun f name s =>
  Py_FindMethod base list_methods f name s

/-- The type table: `PyInt_Type`, `PyLong_Type`, `PyList_Type` and the
three types of `dbi.c` as their static initialisers give them; the
comparison and attribute slots of the other host types are present and not
modelled. -/
def tp : PyTypeObject → TypeSlots
  | .PyInt_Type => ⟨none, some int_compare, some int_as_number⟩
  | .PyLong_Type => ⟨none, some unmodelledCmp, some long_as_number⟩
  | .PyList_Type => ⟨some list_getattr, some unmodelledCmp, none⟩
  | .PyString_Type => ⟨none, some unmodelledCmp, none⟩
  | .PyTuple_Type => ⟨none, some unmodelledCmp, none⟩
  | .PyCFunction_Type => ⟨some unmodelledGetattr, some unmodelledCmp, none⟩
  | .DbiDate_Type =>
    ⟨some (dbiGetAttr base), some unmodelledCmp,
      some ⟨some unmodelledBinary, some unmodelledBinary, some unmodelledUnary,
        some unmodelledUnary, some unmodelledUnary, some unmodelledUnary,
        some unmodelledUnary⟩⟩
  | .DbiRaw_Type => ⟨some (dbiGetAttr base), none, none⟩
  | .DbiRowId_Type => ⟨some (dbiGetAttr base), none, none⟩
  | .other _ => ⟨none, none, none⟩

/-- Model of `PyNumber_Check(o)`: `o && o->ob_type->tp_as_number`. -/
def PyNumber_Check (s : State) (o : Ptr) : Bool :=
  match s.deref o with
  | some ob => (tp ob.ob_type).tp_as_number.isSome
  | none => false

/-- Model of `null_error()`: set `SystemError` unless an exception is
pending, and return `NULL`. -/
def null_error (s : State) : Ptr × State :=
  (NULL, if s.err.isSome then s else PyErr_SetString s .SystemError)

/-- Model of `PyNumber_Int(o)`: `null_error()` for `NULL`, the `nb_int` slot when
the type has one, else a `TypeError`.  The branch for string objects
(`int_from_string`) is not modelled. -/
def PyNumber_Int : unaryfunc := fun o s =>
  if o = NULL then some (null_error s)
  else
    match s.deref o with
    | none => none
    | some ob =>
      if ob.ob_type = .PyString_Type then none
      else
        match (tp ob.ob_type).tp_as_number with
        | some m =>
          match m.nb_int with
          | some f => f o s
          | none => some (NULL, PyErr_SetString s .TypeError)
        | none => some (NULL, PyErr_SetString s .TypeError)

/-! ### `ctime` in the UTC time zone -/

/-- The table `wday_name` of `asctime`. -/
def wday_name : List String := ["Sun", "Mon", "Tue", "Wed", "Thu", "Fri", "Sat"]

/-- The table `mon_name` of `asctime`. -/
def mon_name : List String :=
  ["Jan", "Feb", "Mar", "Apr", "May", "Jun", "Jul", "Aug", "Sep", "Oct", "Nov", "Dec"]

/-- The broken-down time `struct tm`; `tm_year` counts from 1900. -/
structure Tm where
  tm_sec : Int
  tm_min : Int
  tm_hour : Int
  tm_mday : Int
  tm_mon : Int
  tm_year : Int
  tm_wday : Int
  deriving DecidableEq, Repr

/-- Model of `gmtime(&t)`: the proleptic Gregorian calendar date of `t` seconds
after 1970-01-01 00:00:00 UTC. -/
def gmtime (t : Int) : Tm :=
  let days := t / 86400
  let rem := t % 86400
  let z := days + 719468
  let era := z / 146097
  let doe := z % 146097
  let yoe := (doe - doe / 1460 + doe / 36524 - doe / 146096) / 365
  let doy := doe - (365 * yoe + yoe / 4 - yoe / 100)
  let mp := (5 * doy + 2) / 153
  let d := doy - (153 * mp + 2) / 5 + 1
  let m := if mp < 10 then mp + 3 else mp - 9
  let y := yoe + era * 400 + (if m ≤ 2 then 1 else 0)
  { tm_sec := rem % 60, tm_min := rem / 60 % 60, tm_hour := rem / 3600,
    tm_mday := d, tm_mon := m - 1, tm_year := y - 1900,
    tm_wday := (days + 4) % 7 }

/-- The conversion `%d` of `printf`. -/
def fmt_d (n : Int) : List Char :=
  if n < 0 then '-' :: Nat.toDigits 10 n.natAbs else Nat.toDigits 10 n.natAbs

/-- The conversion `%Nd` of `printf`: `%d`, padded on the left with blanks
to `width` characters. -/
def fmt_wd (width : Nat) (n : Int) : List Char :=
  List.replicate (width - (fmt_d n).length) ' ' ++ fmt_d n

/-- The conversion `%.2d` of `printf` for a value that is not negative: at
least two digits. -/
def fmt_02d (n : Int) : List Char :=
  List.replicate (2 - (fmt_d n).length) '0' ++ fmt_d n

/-- Model of `asctime(tm)`, the algorithm of the C standard: the format
`"%.3s %.3s%3d %.2d:%.2d:%.2d %d\n"`. -/
def asctime (tm : Tm) : List Char :=
  (wday_name.getD tm.tm_wday.toNat "").data ++ [' '] ++
  (mon_name.getD tm.tm_mon.toNat "").data ++ fmt_wd 3 tm.tm_mday ++ [' '] ++
  fmt_02d tm.tm_hour ++ [':'] ++ fmt_02d tm.tm_min ++ [':'] ++ fmt_02d tm.tm_sec ++
  [' '] ++ fmt_d (1900 + tm.tm_year) ++ [Char.ofNat 10]

/-- Model of `ctime(&t)` with `TZ=UTC`: `asctime(gmtime(&t))` in a static buffer of
114 bytes, zero after the text; `NULL` when the year does not fit the `int`
field `tm_year`. -/
def ctime (t : Int) : Option (List Char) :=
  let tm := gmtime t
  if -2147483648 ≤ tm.tm_year ∧ tm.tm_year ≤ 2147483647 then
    let text := asctime tm
    some (text ++ List.replicate (114 - text.length) (Char.ofNat 0))
  else none

end CPython

/-- The concrete host. -/
def hostCPython : Host where
  tp := CPython.tp
  PyNumber_Check := CPython.PyNumber_Check
  PyNumber_Int := CPython.PyNumber_Int
  PyInt_AsLong_other := fun _ _ => none
  ctime := CPython.ctime
  listmethods := CPython.listmethods
  uninitialised := fun n => List.replicate n (Char.ofNat 0)

/-! ## The static type objects of `dbi.c` -/

/-- The slot `tp_str` of the three static type objects: `dateStr` for
`DbiDate_Type`, `rawStr` for `DbiRaw_Type`, `NULL` for `DbiRowId_Type`. -/
def dbi_tp_str (θ : Host) : PyTypeObject → Option unaryfunc
  | .DbiDate_Type => some (dateStr θ)
  | .DbiRaw_Type => some rawStr
  | _ => none

/-! ## Properties of results -/

/-- The state `s` with a new container of type `ty` around `v` added, as
`makeDbiType` leaves it. -/
def wrapped (s : State) (ty : PyTypeObject) (v : Ptr) : State :=
  (PyObject_NEW s ty (.container v)).2

/-- The C string that starts a buffer: its bytes before the first zero
byte.  For the buffer of `ctime` this is the calendar text. -/
def cstring (buf : List Char) : List Char :=
  buf.takeWhile (fun ch => ch ≠ Char.ofNat 0)

/-- A text of `n` characters, none of them a line terminator or a zero
byte. -/
def plainText (text : List Char) (n : Nat) : Prop :=
  text.length = n ∧ ∀ ch ∈ text, ch ≠ Char.ofNat 10 ∧ ch ≠ Char.ofNat 0

/-- The call returned a container on which the three kind predicates give
`date`, `raw` and `rowid`. -/
def hasKinds (r : Option (Ptr × State)) (date raw rowid : Bool) : Prop :=
  ∃ c s', r = some (c, s') ∧ c ≠ NULL ∧
    dbiIsDate s' c = some date ∧ dbiIsRaw s' c = some raw ∧ dbiIsRowId s' c = some rowid

/-- The call returned a container from which both `dbiValue` and the
attribute `value` give back the pointer `v`, and the object at `v` still
has the type and the body `ov` had before the call. -/
def givesBack (θ : Host) (v : Ptr) (ov : PyObject) (r : Option (Ptr × State)) : Prop :=
  ∃ c s', r = some (c, s') ∧ dbiValue s' c = some v ∧
    ∃ s'' o', dbiGetAttr θ c "value" s' = some (v, s'') ∧
      s''.deref v = some o' ∧ o'.ob_type = ov.ob_type ∧ o'.body = ov.body

/-- The outcome of a constructor called with the argument tuple `items`:
a new container of type `ty` around the single item and no exception when
there is exactly one item, else `NULL` and a `TypeError`. -/
def oneArgument (s : State) (items : List Ptr) (ty : PyTypeObject)
    (r : Option (Ptr × State)) : Prop :=
  ∃ c s', r = some (c, s') ∧ (c ≠ NULL ↔ items.length = 1) ∧
    (items.length = 1 →
      s.deref c = none ∧ s'.err = s.err ∧
        ∃ v, items = [v] ∧ s'.deref c = some ⟨1, ty, .container v⟩) ∧
    (items.length ≠ 1 → c = NULL ∧ s' = PyErr_SetString s .TypeError)


/-- In state `s`, every numeric operator of the Date container `c` gives
what the corresponding slot of `m`, when the slot is present, gives on the
wrapped value `a` (and the same second operand). -/
def delegates (θ : Host) (m : PyNumberMethods) (a c : Ptr) (s : State) : Prop :=
  (∀ f b, m.nb_add = some f → dt_nb_add θ c b s = f a b s) ∧
  (∀ f b, m.nb_subtract = some f → dt_nb_subtract θ c b s = f a b s) ∧
  (∀ f, m.nb_int = some f → dt_nb_int θ c s = f a s) ∧
  (∀ f, m.nb_long = some f → dt_nb_long θ c s = f a s) ∧
  (∀ f, m.nb_float = some f → dt_nb_float θ c s = f a s) ∧
  (∀ f, m.nb_oct = some f → dt_nb_oct θ c s = f a s) ∧
  (∀ f, m.nb_hex = some f → dt_nb_hex θ c s = f a s)


/-! ## Concrete states -/

/-- The byte string `AB\0CD`. -/
def bytesABCD : List Char := ['A', 'B', Char.ofNat 0, 'C', 'D']

/-- A heap with the byte string `AB\0CD` at address 1 and the argument
tuple `(AB\0CD,)` at address 2. -/
def sRaw : State :=
  ⟨[⟨1, .PyString_Type, .string bytesABCD⟩, ⟨1, .PyTuple_Type, .tuple [1]⟩], none⟩

/-- Two string objects with the same bytes, at addresses 1 and 2. -/
def sRawPair0 : State :=
  ⟨[⟨1, .PyString_Type, .string bytesABCD⟩, ⟨1, .PyString_Type, .string bytesABCD⟩], none⟩

/-- The state `sRawPair0` after `dbiMakeRaw` has wrapped the two strings:
the Raw containers are at addresses 3 and 4. -/
def sRawPair : State :=
  ⟨[⟨1, .PyString_Type, .string bytesABCD⟩, ⟨1, .PyString_Type, .string bytesABCD⟩,
    ⟨1, .DbiRaw_Type, .container 1⟩, ⟨1, .DbiRaw_Type, .container 2⟩], none⟩

/-- The `int` objects 5 and 3 at addresses 1 and 2 and the argument tuple
`(5,)` at address 3. -/
def sInt : State :=
  ⟨[⟨1, .PyInt_Type, .int 5⟩, ⟨1, .PyInt_Type, .int 3⟩, ⟨1, .PyTuple_Type, .tuple [1]⟩], none⟩

/-- Two distinct `int` objects, both 1000, at addresses 1 and 2, and the
`int` objects 5 and 3 at addresses 3 and 4. -/
def sCmp0 : State :=
  ⟨[⟨1, .PyInt_Type, .int 1000⟩, ⟨1, .PyInt_Type, .int 1000⟩,
    ⟨1, .PyInt_Type, .int 5⟩, ⟨1, .PyInt_Type, .int 3⟩], none⟩

/-- The state `sCmp0` after `dbiMakeDate` has wrapped the four objects, in
order: the Date containers are at addresses 5, 6, 7 and 8. -/
def sCmp : State :=
  ⟨[⟨1, .PyInt_Type, .int 1000⟩, ⟨1, .PyInt_Type, .int 1000⟩,
    ⟨1, .PyInt_Type, .int 5⟩, ⟨1, .PyInt_Type, .int 3⟩,
    ⟨1, .DbiDate_Type, .container 1⟩, ⟨1, .DbiDate_Type, .container 2⟩,
    ⟨1, .DbiDate_Type, .container 3⟩, ⟨1, .DbiDate_Type, .container 4⟩], none⟩

/-- The `int` object 0 at address 1, the `int` object 7 at address 2 and the
string `AB\0CD` at address 3. -/
def sCoerce0 : State :=
  ⟨[⟨1, .PyInt_Type, .int 0⟩, ⟨1, .PyInt_Type, .int 7⟩,
    ⟨1, .PyString_Type, .string bytesABCD⟩], none⟩

/-- The state `sCoerce0` after `dbiMakeDate` has wrapped the `int` 0: the
Date container is at address 4. -/
def sCoerce : State :=
  ⟨[⟨1, .PyInt_Type, .int 0⟩, ⟨1, .PyInt_Type, .int 7⟩,
    ⟨1, .PyString_Type, .string bytesABCD⟩, ⟨1, .DbiDate_Type, .container 1⟩], none⟩

/-- The `int` object 0 at address 1 and the `long` object `2 ^ 100` at
address 2. -/
def sBig0 : State :=
  ⟨[⟨1, .PyInt_Type, .int 0⟩, ⟨1, .PyLong_Type, .long 1267650600228229401496703205376⟩],
    none⟩

/-- The state `sBig0` after `dbiMakeDate` has wrapped the `int` 0: the Date
container is at address 3. -/
def sBig : State :=
  ⟨[⟨1, .PyInt_Type, .int 0⟩, ⟨1, .PyLong_Type, .long 1267650600228229401496703205376⟩,
    ⟨1, .DbiDate_Type, .container 1⟩], none⟩

/-- The state `sBig` after `dt_nb_coerce` on the Date container 3 and the
`long` 2: a pending `OverflowError` and, at address 4, a Date container
with `objectOf == NULL`. -/
def sBigCoerced : State :=
  ⟨[⟨1, .PyInt_Type, .int 0⟩, ⟨1, .PyLong_Type, .long 1267650600228229401496703205376⟩,
    ⟨2, .DbiDate_Type, .container 1⟩, ⟨1, .DbiDate_Type, .container NULL⟩],
    some .OverflowError⟩

/-- The timestamp of 0999-01-01 00:00:00 UTC. -/
def year999 : Int := -30641760000

/-- The `int` object `year999` at address 1. -/
def sOld0 : State := ⟨[⟨1, .PyInt_Type, .int year999⟩], none⟩

/-- The state `sOld0` after `dbiMakeDate` has wrapped the `int`: the Date
container is at address 2. -/
def sOld : State :=
  ⟨[⟨1, .PyInt_Type, .int year999⟩, ⟨1, .DbiDate_Type, .container 1⟩], none⟩

/-- The `int` object 0 at address 1 and the Date container around it at
address 2. -/
def sEpoch : State :=
  ⟨[⟨1, .PyInt_Type, .int 0⟩, ⟨1, .DbiDate_Type, .container 1⟩], none⟩

/-- An empty list object at address 1. -/
def sList0 : State := ⟨[⟨1, .PyList_Type, .list []⟩], none⟩

/-- The state `sList0` after `dbiMakeRaw` has wrapped the list: the Raw
container is at address 2. -/
def sList : State :=
  ⟨[⟨1, .PyList_Type, .list []⟩, ⟨1, .DbiRaw_Type, .container 1⟩], none⟩

/-! ## The heap -/

theorem deref_lt {s : State} {p : Ptr} {o : PyObject} (h : s.deref p = some o) :
    p ≠ 0 ∧ p ≤ s.heap.length := by
  cases p with
  | zero => simp [State.deref] at h
  | succ q =>
    simp only [State.deref] at h
    have hq := (List.getElem?_eq_some_iff.mp h).1
    exact ⟨Nat.succ_ne_zero q, hq⟩

theorem deref_store_self {s : State} {p : Ptr} {o : PyObject} (o' : PyObject)
    (h : s.deref p = some o) : (s.store p o').deref p = some o' := by
  cases p with
  | zero => simp [State.deref] at h
  | succ q =>
    simp only [State.deref] at h
    have hq := (List.getElem?_eq_some_iff.mp h).1
    simp [State.deref, State.store, hq]

theorem deref_store_other (s : State) {p q : Ptr} (o' : PyObject) (h : p ≠ q) :
    (s.store p o').deref q = s.deref q := by
  cases p with
  | zero => rfl
  | succ p' =>
    cases q with
    | zero => rfl
    | succ q' =>
      have : p' ≠ q' := fun e => h (by rw [e])
      simp [State.deref, State.store, List.getElem?_set_ne this]

theorem err_store (s : State) (p : Ptr) (o : PyObject) : (s.store p o).err = s.err := by
  cases p <;> rfl

theorem deref_new (s : State) (ty : PyTypeObject) (b : Body) :
    (PyObject_NEW s ty b).2.deref (PyObject_NEW s ty b).1 = some ⟨1, ty, b⟩ := by
  simp [PyObject_NEW, State.deref]

theorem deref_new_old {s : State} {p : Ptr} {o : PyObject} (ty : PyTypeObject) (b : Body)
    (h : s.deref p = some o) : (PyObject_NEW s ty b).2.deref p = some o := by
  cases p with
  | zero => simp [State.deref] at h
  | succ q =>
    simp only [State.deref] at h
    have hq := (List.getElem?_eq_some_iff.mp h).1
    simp only [PyObject_NEW, State.deref]
    rw [List.getElem?_append_left hq]
    exact h

theorem deref_fresh (s : State) : s.deref (s.heap.length + 1) = none := by
  simp [State.deref]

theorem store_new (s : State) (ty : PyTypeObject) (b : Body) (o : PyObject) :
    (PyObject_NEW s ty b).2.store (PyObject_NEW s ty b).1 o =
      { s with heap := s.heap ++ [o] } := by
  simp [PyObject_NEW, State.store]

theorem setObjectOf_new (s : State) (ty : PyTypeObject) (ob : Ptr) :
    setObjectOf (PyObject_NEW s ty (.container NULL)).2
        (PyObject_NEW s ty (.container NULL)).1 ob =
      some (PyObject_NEW s ty (.container ob)).2 := by
  unfold setObjectOf
  rw [deref_new]
  simp only [store_new]
  rfl

theorem Py_INCREF_live {s : State} {p : Ptr} {o : PyObject} (h : s.deref p = some o) :
    Py_INCREF s p = some (s.store p { o with ob_refcnt := o.ob_refcnt + 1 }) := by
  simp [Py_INCREF, h]

theorem makeDbiType_eq (s : State) (v : Ptr) (ty : PyTypeObject) :
    makeDbiType s v ty = some (s.heap.length + 1, wrapped s ty v) := by
  simp only [makeDbiType]
  have := setObjectOf_new s ty v
  simp only [PyObject_NEW] at this ⊢
  rw [this]
  rfl

theorem PyArg_ParseTuple_O_one {s : State} {args v : Ptr} {rc : Int}
    (hargs : s.deref args = some ⟨rc, .PyTuple_Type, .tuple [v]⟩) :
    PyArg_ParseTuple_O s args = some (some v, s) := by
  simp [PyArg_ParseTuple_O, hargs]

theorem makeDbiTypeTP_eq {s : State} {args v : Ptr} {rc : Int} {ov : PyObject}
    (ty : PyTypeObject)
    (hargs : s.deref args = some ⟨rc, .PyTuple_Type, .tuple [v]⟩)
    (hv : s.deref v = some ov) :
    makeDbiTypeTP s args ty =
      some (s.heap.length + 1,
        (wrapped s ty v).store v { ov with ob_refcnt := ov.ob_refcnt + 1 }) := by
  simp only [makeDbiTypeTP, PyArg_ParseTuple_O_one hargs]
  have h1 := setObjectOf_new s ty v
  have h2 : Py_INCREF (PyObject_NEW s ty (.container v)).2 v = _ :=
    Py_INCREF_live (deref_new_old ty (.container v) hv)
  simp only [PyObject_NEW] at h1 h2 ⊢
  rw [h1]
  simp only [h2]
  rfl

theorem deref_wrapped_new (s : State) (ty : PyTypeObject) (v : Ptr) :
    (wrapped s ty v).deref (s.heap.length + 1) = some ⟨1, ty, .container v⟩ :=
  deref_new s ty (.container v)

theorem deref_wrapped_old {s : State} {p : Ptr} {o : PyObject} (ty : PyTypeObject) (v : Ptr)
    (h : s.deref p = some o) : (wrapped s ty v).deref p = some o :=
  deref_new_old ty (.container v) h

/-- After `makeDbiTypeTP` the new container is in place. -/
theorem deref_made_new {s : State} {v : Ptr} {ov : PyObject} (ty : PyTypeObject) (o' : PyObject)
    (hv : s.deref v = some ov) :
    ((wrapped s ty v).store v o').deref (s.heap.length + 1) = some ⟨1, ty, .container v⟩ := by
  have hne : v ≠ s.heap.length + 1 := by
    intro e
    have h := (deref_lt hv).2
    rw [e] at h
    exact Nat.not_succ_le_self _ h
  rw [deref_store_other _ _ hne]
  exact deref_wrapped_new s ty v

/-- After `makeDbiTypeTP` the wrapped object has one more reference. -/
theorem deref_made_old {s : State} {v : Ptr} {ov : PyObject} (ty : PyTypeObject) (o' : PyObject)
    (hv : s.deref v = some ov) :
    ((wrapped s ty v).store v o').deref v = some o' :=
  deref_store_self o' (deref_wrapped_old ty v hv)


/-! ## Construction, kind and unwrapping -/

theorem hasKinds_made {s : State} {v : Ptr} {ov : PyObject} (ty : PyTypeObject) (o' : PyObject)
    (hv : s.deref v = some ov) :
    hasKinds (some (s.heap.length + 1, (wrapped s ty v).store v o'))
      (decide (ty = .DbiDate_Type)) (decide (ty = .DbiRaw_Type))
      (decide (ty = .DbiRowId_Type)) := by
  refine ⟨_, _, rfl, Nat.succ_ne_zero _, ?_, ?_, ?_⟩ <;>
    simp [dbiIsDate, dbiIsRaw, dbiIsRowId, deref_made_new ty o' hv]

theorem hasKinds_wrapped (s : State) (v : Ptr) (ty : PyTypeObject) :
    hasKinds (some (s.heap.length + 1, wrapped s ty v))
      (decide (ty = .DbiDate_Type)) (decide (ty = .DbiRaw_Type))
      (decide (ty = .DbiRowId_Type)) := by
  refine ⟨_, _, rfl, Nat.succ_ne_zero _, ?_, ?_, ?_⟩ <;>
    simp [dbiIsDate, dbiIsRaw, dbiIsRowId, deref_wrapped_new s ty v]

/-- C1: for a value `v` passed as the single item of the argument tuple,
each of `makeDate`, `makeRaw`, `makeRowId` returns a container on which
exactly the kind predicate of its own kind is true, and so does each of
`dbiMakeDate`, `dbiMakeRaw`, `dbiMakeRowId` called on `v`. -/
theorem C1_constructed_kind (s : State) (self args v : Ptr) (rc : Int) (ov : PyObject)
    (hargs : s.deref args = some ⟨rc, .PyTuple_Type, .tuple [v]⟩)
    (hv : s.deref v = some ov) :
    hasKinds (makeDate self args s) true false false ∧
    hasKinds (makeRaw self args s) false true false ∧
    hasKinds (makeRowId self args s) false false true ∧
    hasKinds (dbiMakeDate v s) true false false ∧
    hasKinds (dbiMakeRaw v s) false true false ∧
    hasKinds (dbiMakeRowId v s) false false true := by
  refine ⟨?_, ?_, ?_, ?_, ?_, ?_⟩
  · rw [makeDate, makeDbiTypeTP_eq _ hargs hv]
    exact hasKinds_made .DbiDate_Type _ hv
  · rw [makeRaw, makeDbiTypeTP_eq _ hargs hv]
    exact hasKinds_made .DbiRaw_Type _ hv
  · rw [makeRowId, makeDbiTypeTP_eq _ hargs hv]
    exact hasKinds_made .DbiRowId_Type _ hv
  · rw [dbiMakeDate, makeDbiType_eq]
    exact hasKinds_wrapped s v .DbiDate_Type
  · rw [dbiMakeRaw, makeDbiType_eq]
    exact hasKinds_wrapped s v .DbiRaw_Type
  · rw [dbiMakeRowId, makeDbiType_eq]
    exact hasKinds_wrapped s v .DbiRowId_Type


theorem dbiGetAttr_value {θ : Host} {s : State} {c v : Ptr} {rc : Int} {ty : PyTypeObject}
    {ov : PyObject} (hc : s.deref c = some ⟨rc, ty, .container v⟩)
    (hv : s.deref v = some ov) :
    dbiGetAttr θ c "value" s =
      some (v, s.store v { ov with ob_refcnt := ov.ob_refcnt + 1 }) := by
  simp [dbiGetAttr, dbiValue, hc, Py_INCREF_live hv]

theorem givesBack_of {θ : Host} {s' : State} {c v : Ptr} {rc : Int} {ty : PyTypeObject}
    {ov o : PyObject} (hc : s'.deref c = some ⟨rc, ty, .container v⟩)
    (hv : s'.deref v = some o) (hty : o.ob_type = ov.ob_type) (hbody : o.body = ov.body) :
    givesBack θ v ov (some (c, s')) := by
  refine ⟨c, s', rfl, by simp [dbiValue, hc], _, _, dbiGetAttr_value hc hv,
    deref_store_self _ hv, hty, hbody⟩

/-- C2: for a value `v`, each constructor returns a container from which
`dbiValue` returns `v` and from which `dbiGetAttr` with the name `value`
returns `v` too; the object at `v` keeps its type and its body, so a byte
string comes back with the bytes it had, zero bytes included. -/
theorem C2_unwrap_constructed (θ : Host) (s : State) (self args v : Ptr) (rc : Int)
    (ov : PyObject)
    (hargs : s.deref args = some ⟨rc, .PyTuple_Type, .tuple [v]⟩)
    (hv : s.deref v = some ov) :
    givesBack θ v ov (makeDate self args s) ∧
    givesBack θ v ov (makeRaw self args s) ∧
    givesBack θ v ov (makeRowId self args s) ∧
    givesBack θ v ov (dbiMakeDate v s) ∧
    givesBack θ v ov (dbiMakeRaw v s) ∧
    givesBack θ v ov (dbiMakeRowId v s) := by
  have tp : ∀ ty, givesBack θ v ov (makeDbiTypeTP s args ty) := fun ty => by
    rw [makeDbiTypeTP_eq ty hargs hv]
    exact givesBack_of (deref_made_new ty _ hv) (deref_made_old ty _ hv) rfl rfl
  have mk : ∀ ty, givesBack θ v ov (makeDbiType s v ty) := fun ty => by
    rw [makeDbiType_eq]
    exact givesBack_of (deref_wrapped_new s ty v) (deref_wrapped_old ty v hv) rfl rfl
  exact ⟨tp _, tp _, tp _, mk _, mk _, mk _⟩

theorem oneArgument_TP {s : State} {args : Ptr} {rc : Int} {items : List Ptr}
    (ty : PyTypeObject)
    (hargs : s.deref args = some ⟨rc, .PyTuple_Type, .tuple items⟩)
    (hitems : ∀ v ∈ items, (s.deref v).isSome = true) :
    oneArgument s items ty (makeDbiTypeTP s args ty) := by
  match items, hargs, hitems with
  | [], hargs, _ =>
    refine ⟨NULL, PyErr_SetString s .TypeError, ?_, by simp [NULL], by simp, by simp⟩
    simp [makeDbiTypeTP, PyArg_ParseTuple_O, hargs]
  | [v], hargs, hitems =>
    obtain ⟨ov, hv⟩ := Option.isSome_iff_exists.mp (hitems v (by simp))
    rw [makeDbiTypeTP_eq ty hargs hv]
    refine ⟨_, _, rfl, by simp [NULL], fun _ => ⟨deref_fresh s, ?_, v, rfl, ?_⟩, by simp⟩
    · rw [err_store]; rfl
    · exact deref_made_new ty _ hv
  | _ :: _ :: _, hargs, _ =>
    refine ⟨NULL, PyErr_SetString s .TypeError, ?_, by simp [NULL], by simp, by simp⟩
    simp [makeDbiTypeTP, PyArg_ParseTuple_O, hargs]

/-- C3: called with an argument tuple whose items are live objects,
`makeDate` and `makeRaw` return a new container, of their own type and
around the single item, exactly when the tuple has one item; with any other
number of items they return `NULL` and set a `TypeError`. -/
theorem C3_exactly_one_argument (s : State) (self args : Ptr) (rc : Int) (items : List Ptr)
    (hargs : s.deref args = some ⟨rc, .PyTuple_Type, .tuple items⟩)
    (hitems : ∀ v ∈ items, (s.deref v).isSome = true) :
    oneArgument s items .DbiDate_Type (makeDate self args s) ∧
    oneArgument s items .DbiRaw_Type (makeRaw self args s) :=
  ⟨oneArgument_TP _ hargs hitems, oneArgument_TP _ hargs hitems⟩

/-- C4: the slot `tp_str` of `DbiRaw_Type` is `rawStr`; on a Raw container
wrapping `v₁` it returns the pointer `v₁` itself and leaves the type and the
body of that object as they were (one reference is added); so when a second
Raw container wraps an object with the same type and body, the two rendered
objects have the same type and body. -/
theorem C4_raw_str (θ : Host) (s : State) (c₁ c₂ v₁ v₂ : Ptr) (rc₁ rc₂ : Int)
    (o₁ o₂ : PyObject)
    (hc₁ : s.deref c₁ = some ⟨rc₁, .DbiRaw_Type, .container v₁⟩)
    (hv₁ : s.deref v₁ = some o₁)
    (hc₂ : s.deref c₂ = some ⟨rc₂, .DbiRaw_Type, .container v₂⟩)
    (hv₂ : s.deref v₂ = some o₂) :
    dbi_tp_str θ .DbiRaw_Type = some rawStr ∧
    (∃ s₁, rawStr c₁ s = some (v₁, s₁) ∧
      s₁.deref v₁ = some ⟨o₁.ob_refcnt + 1, o₁.ob_type, o₁.body⟩) ∧
    (o₁.ob_type = o₂.ob_type → o₁.body = o₂.body →
      ∃ r₁ s₁ d₁ r₂ s₂ d₂, rawStr c₁ s = some (r₁, s₁) ∧ s₁.deref r₁ = some d₁ ∧
        rawStr c₂ s = some (r₂, s₂) ∧ s₂.deref r₂ = some d₂ ∧
        d₁.ob_type = d₂.ob_type ∧ d₁.body = d₂.body) := by
  have h₁ : rawStr c₁ s = some (v₁, s.store v₁ { o₁ with ob_refcnt := o₁.ob_refcnt + 1 }) := by
    simp [rawStr, dbiValue, hc₁, Py_INCREF_live hv₁]
  have h₂ : rawStr c₂ s = some (v₂, s.store v₂ { o₂ with ob_refcnt := o₂.ob_refcnt + 1 }) := by
    simp [rawStr, dbiValue, hc₂, Py_INCREF_live hv₂]
  refine ⟨rfl, ⟨_, h₁, deref_store_self _ hv₁⟩, fun hty hbody => ?_⟩
  exact ⟨_, _, _, _, _, _, h₁, deref_store_self _ hv₁, h₂, deref_store_self _ hv₂, hty, hbody⟩


/-! ## Delegation of the numeric operators -/

theorem delegates_of {θ : Host} {m : PyNumberMethods} {s : State} {c a : Ptr} {rc : Int}
    {ty : PyTypeObject} {o : PyObject}
    (hc : s.deref c = some ⟨rc, ty, .container a⟩) (ha : s.deref a = some o)
    (hm : (θ.tp o.ob_type).tp_as_number = some m) : delegates θ m a c s := by
  have hval : dbiValue s c = some a := by simp [dbiValue, hc]
  have hdelg : delg θ s c = some m := by simp [delg, hval, ha, hm]
  refine ⟨?_, ?_, ?_, ?_, ?_, ?_, ?_⟩
  · intro f b hf
    simp [dt_nb_add, delgBinary, hdelg, hval, hf]
  · intro f b hf
    simp [dt_nb_subtract, delgBinary, hdelg, hval, hf]
  · intro f hf
    simp [dt_nb_int, delgUnary, hdelg, hval, hf]
  · intro f hf
    simp [dt_nb_long, delgUnary, hdelg, hval, hf]
  · intro f hf
    simp [dt_nb_float, delgUnary, hdelg, hval, hf]
  · intro f hf
    simp [dt_nb_oct, delgUnary, hdelg, hval, hf]
  · intro f hf
    simp [dt_nb_hex, delgUnary, hdelg, hval, hf]

/-- C5: on the Date container that `makeDate` or `dbiMakeDate` builds
around `a`, `dt_nb_add` and `dt_nb_subtract` with a second operand `b` give
the result of the addition and subtraction slots of `a`'s own type applied
to `a` and `b`, and `dt_nb_int`, `dt_nb_long`, `dt_nb_float`, `dt_nb_oct`,
`dt_nb_hex` give the result of the conversion slots of `a`'s own type
applied to `a`, for every slot that type supplies. -/
theorem C5_date_delegation (θ : Host) (s : State) (self args a : Ptr) (rc : Int)
    (oa : PyObject) (m : PyNumberMethods)
    (hargs : s.deref args = some ⟨rc, .PyTuple_Type, .tuple [a]⟩)
    (ha : s.deref a = some oa)
    (hm : (θ.tp oa.ob_type).tp_as_number = some m) :
    (∃ c s', makeDate self args s = some (c, s') ∧ delegates θ m a c s') ∧
    (∃ c s', dbiMakeDate a s = some (c, s') ∧ delegates θ m a c s') := by
  constructor
  · refine ⟨_, _, makeDbiTypeTP_eq .DbiDate_Type hargs ha, ?_⟩
    exact delegates_of (deref_made_new _ _ ha) (deref_made_old _ _ ha) hm
  · refine ⟨_, _, makeDbiType_eq s a .DbiDate_Type, ?_⟩
    exact delegates_of (deref_wrapped_new s _ a) (deref_wrapped_old _ a ha) hm

/-! ## Comparison -/

/-- What `dt_cmp` does: it calls the comparison slot of the wrapped value's
type on the two containers it was given. -/
theorem dt_cmp_eq {θ : Host} {s : State} {a b v : Ptr} {rc : Int} {ty : PyTypeObject}
    {o : PyObject} {f : cmpfunc}
    (ha : s.deref a = some ⟨rc, ty, .container v⟩) (hv : s.deref v = some o)
    (hf : (θ.tp o.ob_type).tp_compare = some f) :
    dt_cmp θ a b s = f a b s := by
  simp [dt_cmp, dbiValue, ha, hv, hf]

/-! ## Coercion -/

/-- C7: for a live first operand `v` and a host whose integer conversion of
a numeric `w` returns and leaves `v` and the newly allocated container in
place, `dt_nb_coerce` returns 0 exactly when `PyNumber_Check(w)` holds.
Then `*pv` is still `v` and `*pw` is a new Date container whose wrapped
value is the result of `PyNumber_Int(w)`.  Otherwise it returns 1 and
leaves `*pv`, `*pw` and the whole state, error indicator included, as they
were. -/
theorem C7_coerce (θ : Host) (s : State) (pv pw : Ptr) (ov : PyObject)
    (hv : s.deref pv = some ov)
    (hhost : θ.PyNumber_Check s pw = true →
      ∃ r s2, θ.PyNumber_Int pw (PyObject_NEW s .DbiDate_Type (.container NULL)).2
          = some (r, s2) ∧
        s2.deref (s.heap.length + 1) = some ⟨1, .DbiDate_Type, .container NULL⟩ ∧
        (s2.deref pv).isSome = true) :
    (θ.PyNumber_Check s pw = true →
      ∃ r s2 s', θ.PyNumber_Int pw (PyObject_NEW s .DbiDate_Type (.container NULL)).2
          = some (r, s2) ∧
        dt_nb_coerce θ pv pw s = some (0, pv, s.heap.length + 1, s') ∧
        s.deref (s.heap.length + 1) = none ∧
        dbiIsDate s' (s.heap.length + 1) = some true ∧
        dbiValue s' (s.heap.length + 1) = some r ∧
        s'.err = s2.err) ∧
    (θ.PyNumber_Check s pw = false → dt_nb_coerce θ pv pw s = some (1, pv, pw, s)) ∧
    (∃ res, dt_nb_coerce θ pv pw s = some res ∧
      (res.1 = 0 ↔ θ.PyNumber_Check s pw = true)) := by
  have hne : pv ≠ s.heap.length + 1 := by
    intro e
    have h := (deref_lt hv).2
    rw [e] at h
    exact Nat.not_succ_le_self _ h
  have key : θ.PyNumber_Check s pw = true →
      ∃ r s2 s', θ.PyNumber_Int pw (PyObject_NEW s .DbiDate_Type (.container NULL)).2
          = some (r, s2) ∧
        dt_nb_coerce θ pv pw s = some (0, pv, s.heap.length + 1, s') ∧
        s.deref (s.heap.length + 1) = none ∧
        dbiIsDate s' (s.heap.length + 1) = some true ∧
        dbiValue s' (s.heap.length + 1) = some r ∧
        s'.err = s2.err := by
    intro hnum
    obtain ⟨r, s2, hint, hdbt, hpv⟩ := hhost hnum
    obtain ⟨o2, ho2⟩ := Option.isSome_iff_exists.mp hpv
    have hset : setObjectOf s2 (s.heap.length + 1) r =
        some (s2.store (s.heap.length + 1) ⟨1, .DbiDate_Type, .container r⟩) := by
      simp [setObjectOf, hdbt]
    have hpv3 : (s2.store (s.heap.length + 1) ⟨1, .DbiDate_Type, .container r⟩).deref pv
        = some o2 := by
      rw [deref_store_other _ _ (Ne.symm hne)]
      exact ho2
    have hfinal : ((s2.store (s.heap.length + 1) ⟨1, .DbiDate_Type, .container r⟩).store pv
        { o2 with ob_refcnt := o2.ob_refcnt + 1 }).deref (s.heap.length + 1)
        = some ⟨1, .DbiDate_Type, .container r⟩ := by
      rw [deref_store_other _ _ hne]
      exact deref_store_self _ hdbt
    refine ⟨r, s2,
      (s2.store (s.heap.length + 1) ⟨1, .DbiDate_Type, .container r⟩).store pv
        { o2 with ob_refcnt := o2.ob_refcnt + 1 },
      hint, ?_, deref_fresh s, ?_, ?_, ?_⟩
    · simp only [PyObject_NEW] at hint
      simp only [dt_nb_coerce, hnum, PyObject_NEW, hint, hset, Py_INCREF_live hpv3]
      rfl
    · simp [dbiIsDate, hfinal]
    · simp [dbiValue, hfinal]
    · rw [err_store, err_store]
  have key' : θ.PyNumber_Check s pw = false → dt_nb_coerce θ pv pw s = some (1, pv, pw, s) := by
    intro hnum
    simp [dt_nb_coerce, hnum]
  refine ⟨key, key', ?_⟩
  cases hnum : θ.PyNumber_Check s pw with
  | true =>
    obtain ⟨r, s2, s', _, hres, _⟩ := key hnum
    exact ⟨_, hres, by simp⟩
  | false =>
    exact ⟨_, key' hnum, by simp⟩

/-- On the concrete host the condition of C7 on the host holds for every
second operand that is an `int` or a `long` object: it is numeric, its
integer conversion returns, and the conversion leaves the first operand
and the newly allocated container in place. -/
theorem hostCPython_conversion_frame (s : State) (pv pw : Ptr) (ov ow : PyObject)
    (hv : s.deref pv = some ov) (hw : s.deref pw = some ow)
    (hty : ow.ob_type = .PyInt_Type ∨
      (ow.ob_type = .PyLong_Type ∧ ∃ x, ow.body = .long x)) :
    hostCPython.PyNumber_Check s pw = true ∧
    ∃ r s2, hostCPython.PyNumber_Int pw (PyObject_NEW s .DbiDate_Type (.container NULL)).2
        = some (r, s2) ∧
      s2.deref (s.heap.length + 1) = some ⟨1, .DbiDate_Type, .container NULL⟩ ∧
      (s2.deref pv).isSome = true := by
  have hne : pw ≠ s.heap.length + 1 := by
    intro e
    have h := (deref_lt hw).2
    rw [e] at h
    exact Nat.not_succ_le_self _ h
  have hnull : pw ≠ NULL := (deref_lt hw).1
  have hw1 := deref_new_old .DbiDate_Type (.container NULL) hw
  have hv1 := deref_new_old .DbiDate_Type (.container NULL) hv
  have hd1 := deref_new s .DbiDate_Type (.container NULL)
  have hfst : (PyObject_NEW s .DbiDate_Type (.container NULL)).1 = s.heap.length + 1 := rfl
  rw [hfst] at hd1
  generalize (PyObject_NEW s .DbiDate_Type (.container NULL)).2 = s1 at hw1 hv1 hd1 ⊢
  rcases hty with hint | ⟨hlong, x, hx⟩
  · refine ⟨by simp [hostCPython, CPython.PyNumber_Check, hw, hint, CPython.tp], ?_⟩
    refine ⟨pw, s1.store pw { ow with ob_refcnt := ow.ob_refcnt + 1 }, ?_, ?_, ?_⟩
    · simp [hostCPython, CPython.PyNumber_Int, hnull, hw1, hint, CPython.tp,
        CPython.int_as_number, CPython.int_int, Py_INCREF_live hw1]
    · rw [deref_store_other _ _ hne]
      exact hd1
    · by_cases e : pw = pv
      · subst e
        rw [deref_store_self _ hw1]
        rfl
      · rw [deref_store_other _ _ e, hv1]
        rfl
  · refine ⟨by simp [hostCPython, CPython.PyNumber_Check, hw, hlong, CPython.tp], ?_⟩
    obtain ⟨rc, ty, body⟩ := ow
    simp only at hlong hx
    subst hlong hx
    have hcall : hostCPython.PyNumber_Int pw s1 = CPython.long_int pw s1 := by
      simp [hostCPython, CPython.PyNumber_Int, hnull, hw1, CPython.tp, CPython.long_as_number]
    rw [hcall]
    by_cases hr : CPython.LONG_MIN ≤ x ∧ x ≤ CPython.LONG_MAX
    · by_cases he : s1.err.isSome = true
      · refine ⟨NULL, s1, ?_, hd1, by rw [hv1]; rfl⟩
        simp [CPython.long_int, hw1, hr, he]
      · refine ⟨(PyObject_NEW s1 .PyInt_Type (.int x)).1,
          (PyObject_NEW s1 .PyInt_Type (.int x)).2, ?_,
          deref_new_old _ _ hd1, by rw [deref_new_old _ _ hv1]; rfl⟩
        simp [CPython.long_int, hw1, hr, he, CPython.PyInt_FromLong]
    · refine ⟨NULL, PyErr_SetString s1 .OverflowError, ?_, hd1, by
        show (s1.deref pv).isSome = true
        rw [hv1]; rfl⟩
      simp [CPython.long_int, hw1, hr, PyErr_SetString]

/-! ## Attribute lookup -/

/-- C9, amended: for a name other than `value`, `dbiGetAttr` does not
consult the wrapped value.  It is `Py_FindMethod` on the container and the
empty table `noMethods`: the name `__methods__` gives the host's listing
of that table, and every other name gives `NULL` with an `AttributeError`
set and the heap unchanged, whatever the container wraps. -/
theorem C9_getattr_own_table (θ : Host) (s : State) (c : Ptr) (name : String)
    (hname : name ≠ "value") :
    dbiGetAttr θ c name s = Py_FindMethod θ noMethods c name s ∧
    (name = "__methods__" → dbiGetAttr θ c name s = θ.listmethods noMethods s) ∧
    (name ≠ "__methods__" →
      dbiGetAttr θ c name s = some (NULL, PyErr_SetString s .AttributeError)) := by
  have h : dbiGetAttr θ c name s = Py_FindMethod θ noMethods c name s := by
    simp [dbiGetAttr, hname]
  refine ⟨h, fun hm => ?_, fun hm => ?_⟩
  · rw [h]
    simp [Py_FindMethod, hm]
  · rw [h]
    simp [Py_FindMethod, hm, noMethods]

/-! ## Rendering a date -/

/-- What `dateStr` does on a container that wraps the `int` object `t`, when
`ctime` returns a buffer of at least 24 bytes: it returns a new string
object holding the first 24 bytes of that buffer. -/
theorem dateStr_eq {θ : Host} {s : State} {c v : Ptr} {rc rv : Int} {ty : PyTypeObject}
    {t : Int} {buf : List Char}
    (hc : s.deref c = some ⟨rc, ty, .container v⟩)
    (hv : s.deref v = some ⟨rv, .PyInt_Type, .int t⟩)
    (hbuf : θ.ctime t = some buf) (hlen : 24 ≤ buf.length) :
    dateStr θ c s = some (PyObject_NEW s .PyString_Type (.string (buf.take 24))) := by
  simp [dateStr, dbiValue, hc, PyInt_AsLong, hv, PyString_FromStringAndSize, hbuf, hlen]


/-- What `dateStr` does when the calendar text of `ctime` is `text` and then
the line terminator, with `text` of 24 characters: it returns a new string
object holding `text`. -/
theorem dateStr_conventional {θ : Host} {s : State} {c v : Ptr} {rc rv : Int}
    {ty : PyTypeObject} {t : Int} {buf text : List Char}
    (hc : s.deref c = some ⟨rc, ty, .container v⟩)
    (hv : s.deref v = some ⟨rv, .PyInt_Type, .int t⟩)
    (hbuf : θ.ctime t = some buf)
    (htext : cstring buf = text ++ [Char.ofNat 10])
    (hlen : text.length = 24) :
    dateStr θ c s = some (PyObject_NEW s .PyString_Type (.string text)) ∧
      (cstring buf).take 24 = text := by
  have hsplit : buf = (text ++ [Char.ofNat 10]) ++
      buf.dropWhile (fun ch => ch ≠ Char.ofNat 0) := by
    rw [← htext]
    exact (List.takeWhile_append_dropWhile _ buf).symm
  have hlen24 : 24 ≤ buf.length := by
    rw [hsplit]
    simp [hlen]
  have htake : buf.take 24 = text := by
    rw [hsplit, List.append_assoc, ← hlen, List.take_left]
  have hctake : (cstring buf).take 24 = text := by
    rw [htext, ← hlen, List.take_left]
  exact ⟨by rw [dateStr_eq hc hv hbuf hlen24, htake], hctake⟩

/-- C8, amended: when the calendar text that `ctime` gives for the wrapped
`int` timestamp `t` has 24 characters before its line terminator, and no
line terminator among them, `dateStr` returns a new string object of
exactly 24 characters, with no line terminator, equal to the first 24
characters of that calendar text. -/
theorem C8_dateStr_conventional (θ : Host) (s : State) (c v : Ptr) (rc rv : Int)
    (t : Int) (buf text : List Char)
    (hc : s.deref c = some ⟨rc, .DbiDate_Type, .container v⟩)
    (hv : s.deref v = some ⟨rv, .PyInt_Type, .int t⟩)
    (hbuf : θ.ctime t = some buf)
    (htext : cstring buf = text ++ [Char.ofNat 10])
    (hlen : text.length = 24)
    (hnl : Char.ofNat 10 ∉ text) :
    ∃ p s' r, dateStr θ c s = some (p, s') ∧ s.deref p = none ∧
      s'.deref p = some ⟨1, .PyString_Type, .string r⟩ ∧
      r.length = 24 ∧ Char.ofNat 10 ∉ r ∧ r = (cstring buf).take 24 := by
  obtain ⟨hstr, htake⟩ := dateStr_conventional hc hv hbuf htext hlen
  exact ⟨s.heap.length + 1, (PyObject_NEW s .PyString_Type (.string text)).2, text,
    hstr, deref_fresh s, deref_new s _ _, hlen, hnl, htake.symm⟩

namespace CPython

/-! ## The calendar text in the UTC time zone -/

theorem gmtime_fields (t : Int) :
    (0 ≤ (gmtime t).tm_sec ∧ (gmtime t).tm_sec ≤ 59) ∧
    (0 ≤ (gmtime t).tm_min ∧ (gmtime t).tm_min ≤ 59) ∧
    (0 ≤ (gmtime t).tm_hour ∧ (gmtime t).tm_hour ≤ 23) ∧
    (0 ≤ (gmtime t).tm_wday ∧ (gmtime t).tm_wday ≤ 6) := by
  simp only [gmtime]
  omega

theorem gmtime_date (t : Int) :
    (1 ≤ (gmtime t).tm_mday ∧ (gmtime t).tm_mday ≤ 31) ∧
    (0 ≤ (gmtime t).tm_mon ∧ (gmtime t).tm_mon ≤ 11) := by
  simp only [gmtime]
  split_ifs <;> omega

/-- From 1000-01-01 00:00:00 to 9999-12-31 23:59:59 the year has four
digits. -/
theorem gmtime_year (t : Int) (h1 : -30610224000 ≤ t) (h2 : t ≤ 253402300799) :
    1000 ≤ 1900 + (gmtime t).tm_year ∧ 1900 + (gmtime t).tm_year ≤ 9999 := by
  simp only [gmtime]
  generalize hz : t / 86400 + 719468 = z
  have hz1 : 365183 ≤ z := by omega
  have hz2 : z ≤ 3652364 := by omega
  generalize hera : z / 146097 = era
  generalize hdoe : z % 146097 = doe
  have he1 : 2 ≤ era := by omega
  have he2 : era ≤ 24 := by omega
  have hd0 : 0 ≤ doe := by omega
  have hd1 : doe ≤ 146096 := by omega
  have hlo : era = 2 → 72989 ≤ doe := by omega
  have hhi : era = 24 → doe ≤ 146036 := by omega
  generalize hyoe : (doe - doe / 1460 + doe / 36524 - doe / 146096) / 365 = yoe
  have hy0 : 0 ≤ yoe := by omega
  have hy1 : yoe ≤ 399 := by omega
  have hylo : 72989 ≤ doe → 199 ≤ yoe := by omega
  generalize hdoy : doe - (365 * yoe + yoe / 4 - yoe / 100) = doy
  have hdoylo : 72989 ≤ doe → yoe = 199 → 306 ≤ doy := by omega
  have hdoyhi : doe ≤ 146036 → yoe = 399 → doy ≤ 305 := by omega
  generalize hmp : (5 * doy + 2) / 153 = mp
  have hmplo : 306 ≤ doy → 10 ≤ mp := by omega
  have hmphi : doy ≤ 305 → mp < 10 := by omega
  split_ifs <;> omega

theorem plainText_append {a b : List Char} {m n : Nat} (ha : plainText a m)
    (hb : plainText b n) : plainText (a ++ b) (m + n) := by
  refine ⟨by simp [ha.1, hb.1], fun c hc => ?_⟩
  rcases List.mem_append.mp hc with h | h
  · exact ha.2 c h
  · exact hb.2 c h

theorem plainText_digit (n : Nat) (h : n < 10) : plainText [Nat.digitChar n] 1 := by
  interval_cases n <;> exact ⟨rfl, by decide⟩

theorem toDigits_one (n : Nat) (h : n < 10) : Nat.toDigits 10 n = [Nat.digitChar n] := by
  interval_cases n <;> rfl

theorem toDigits_two (n : Nat) (h1 : 10 ≤ n) (h2 : n ≤ 99) :
    Nat.toDigits 10 n = [Nat.digitChar (n / 10), Nat.digitChar (n % 10)] := by
  interval_cases n <;> rfl

theorem toDigits_four (n : Nat) (h1 : 1000 ≤ n) (h2 : n ≤ 9999) :
    Nat.toDigits 10 n = [Nat.digitChar (n / 1000), Nat.digitChar (n / 100 % 10),
      Nat.digitChar (n / 10 % 10), Nat.digitChar (n % 10)] := by
  obtain ⟨k, rfl⟩ : ∃ k, n = k + 4 := ⟨n - 4, by omega⟩
  have e1 : (k + 4) / 10 ≠ 0 := by omega
  have e2 : (k + 4) / 10 / 10 ≠ 0 := by omega
  have e3 : (k + 4) / 10 / 10 / 10 ≠ 0 := by omega
  have e4 : (k + 4) / 10 / 10 / 10 / 10 = 0 := by omega
  have d3 : (k + 4) / 10 / 10 / 10 % 10 = (k + 4) / 1000 := by omega
  have d2 : (k + 4) / 10 / 10 % 10 = (k + 4) / 100 % 10 := by omega
  simp only [Nat.toDigits, Nat.toDigitsCore, e1, e2, e3, e4, if_true, if_false, d3, d2]

theorem fmt_d_nat (n : Nat) : fmt_d (n : Int) = Nat.toDigits 10 n := by
  simp [fmt_d]

theorem plainText_fmt_02d (n : Int) (h0 : 0 ≤ n) (h1 : n ≤ 99) : plainText (fmt_02d n) 2 := by
  obtain ⟨k, rfl⟩ := Int.eq_ofNat_of_zero_le h0
  have hk : k ≤ 99 := by omega
  by_cases h : k < 10
  · have e : fmt_02d (k : Int) = ['0'] ++ [Nat.digitChar k] := by
      simp [fmt_02d, fmt_d_nat, toDigits_one k h]
    rw [e]
    exact plainText_append (m := 1) (n := 1) ⟨rfl, by decide⟩ (plainText_digit k h)
  · have e : fmt_02d (k : Int) = [Nat.digitChar (k / 10)] ++ [Nat.digitChar (k % 10)] := by
      simp [fmt_02d, fmt_d_nat, toDigits_two k (by omega) hk]
    rw [e]
    exact plainText_append (m := 1) (n := 1) (plainText_digit _ (by omega))
      (plainText_digit _ (by omega))

theorem plainText_fmt_wd (n : Int) (h0 : 0 ≤ n) (h1 : n ≤ 99) : plainText (fmt_wd 3 n) 3 := by
  obtain ⟨k, rfl⟩ := Int.eq_ofNat_of_zero_le h0
  have hk : k ≤ 99 := by omega
  by_cases h : k < 10
  · have e : fmt_wd 3 (k : Int) = [' ', ' '] ++ [Nat.digitChar k] := by
      simp [fmt_wd, fmt_d_nat, toDigits_one k h]
    rw [e]
    exact plainText_append (m := 2) (n := 1) ⟨rfl, by decide⟩ (plainText_digit k h)
  · have e : fmt_wd 3 (k : Int) =
        [' '] ++ ([Nat.digitChar (k / 10)] ++ [Nat.digitChar (k % 10)]) := by
      simp [fmt_wd, fmt_d_nat, toDigits_two k (by omega) hk]
    rw [e]
    exact plainText_append (m := 1) (n := 2) ⟨rfl, by decide⟩
      (plainText_append (m := 1) (n := 1) (plainText_digit _ (by omega))
        (plainText_digit _ (by omega)))

theorem plainText_fmt_d_four (n : Int) (h0 : 1000 ≤ n) (h1 : n ≤ 9999) :
    plainText (fmt_d n) 4 := by
  obtain ⟨k, rfl⟩ := Int.eq_ofNat_of_zero_le (by omega : 0 ≤ n)
  have e : fmt_d (k : Int) = [Nat.digitChar (k / 1000)] ++ ([Nat.digitChar (k / 100 % 10)] ++
      ([Nat.digitChar (k / 10 % 10)] ++ [Nat.digitChar (k % 10)])) := by
    rw [fmt_d_nat, toDigits_four k (by omega) (by omega)]
    rfl
  rw [e]
  exact plainText_append (m := 1) (n := 3) (plainText_digit _ (by omega))
    (plainText_append (m := 1) (n := 2) (plainText_digit _ (by omega))
      (plainText_append (m := 1) (n := 1) (plainText_digit _ (by omega))
        (plainText_digit _ (by omega))))

theorem plainText_wday (n : Int) (h0 : 0 ≤ n) (h1 : n ≤ 6) :
    plainText (wday_name.getD n.toNat "").data 3 := by
  obtain ⟨k, rfl⟩ := Int.eq_ofNat_of_zero_le h0
  have hk : k ≤ 6 := by omega
  interval_cases k <;> exact ⟨rfl, by decide⟩

theorem plainText_mon (n : Int) (h0 : 0 ≤ n) (h1 : n ≤ 11) :
    plainText (mon_name.getD n.toNat "").data 3 := by
  obtain ⟨k, rfl⟩ := Int.eq_ofNat_of_zero_le h0
  have hk : k ≤ 11 := by omega
  interval_cases k <;> exact ⟨rfl, by decide⟩

/-- For a four-digit year `asctime` gives 24 plain characters and then the
line terminator. -/
theorem asctime_four_digit (t : Int) (h1 : -30610224000 ≤ t) (h2 : t ≤ 253402300799) :
    ∃ text, plainText text 24 ∧ asctime (gmtime t) = text ++ [Char.ofNat 10] := by
  obtain ⟨hs, hm, hh, hw⟩ := gmtime_fields t
  obtain ⟨hd, hmo⟩ := gmtime_date t
  obtain ⟨hy1, hy2⟩ := gmtime_year t h1 h2
  have sp : plainText [' '] 1 := ⟨rfl, by decide⟩
  have co : plainText [':'] 1 := ⟨rfl, by decide⟩
  refine ⟨_, ?_, rfl⟩
  exact plainText_append (m := 20) (n := 4)
    (plainText_append (m := 19) (n := 1)
      (plainText_append (m := 17) (n := 2)
        (plainText_append (m := 16) (n := 1)
          (plainText_append (m := 14) (n := 2)
            (plainText_append (m := 13) (n := 1)
              (plainText_append (m := 11) (n := 2)
                (plainText_append (m := 10) (n := 1)
                  (plainText_append (m := 7) (n := 3)
                    (plainText_append (m := 4) (n := 3)
                      (plainText_append (m := 3) (n := 1)
                        (plainText_wday _ hw.1 hw.2) sp)
                      (plainText_mon _ hmo.1 hmo.2))
                    (plainText_fmt_wd _ (by omega) (by omega)))
                  sp)
                (plainText_fmt_02d _ hh.1 (by omega)))
              co)
            (plainText_fmt_02d _ hm.1 (by omega)))
          co)
        (plainText_fmt_02d _ hs.1 (by omega)))
      sp)
    (plainText_fmt_d_four _ hy1 hy2)

theorem cstring_plainText {text : List Char} {n : Nat} (h : plainText text n)
    (rest : List Char) :
    cstring (text ++ Char.ofNat 10 :: Char.ofNat 0 :: rest) = text ++ [Char.ofNat 10] := by
  have hall : ∀ c ∈ text, c ≠ Char.ofNat 0 := fun c hc => (h.2 c hc).2
  clear h
  induction text with
  | nil =>
    show List.takeWhile (fun ch => decide (ch ≠ Char.ofNat 0))
      (Char.ofNat 10 :: Char.ofNat 0 :: rest) = [Char.ofNat 10]
    rw [List.takeWhile_cons_of_pos (by decide), List.takeWhile_cons_of_neg (by decide)]
  | cons a l ih =>
    have ha : a ≠ Char.ofNat 0 := hall a (by simp)
    have hl := ih (fun c hc => hall c (by simp [hc]))
    show List.takeWhile (fun ch => decide (ch ≠ Char.ofNat 0))
      (a :: (l ++ Char.ofNat 10 :: Char.ofNat 0 :: rest)) = a :: (l ++ [Char.ofNat 10])
    rw [List.takeWhile_cons_of_pos (by simpa using ha)]
    exact congrArg (List.cons a) hl

/-- For a four-digit year the calendar text of `ctime` is 24 plain
characters and then the line terminator. -/
theorem ctime_four_digit (t : Int) (h1 : -30610224000 ≤ t) (h2 : t ≤ 253402300799) :
    ∃ buf text, ctime t = some buf ∧ cstring buf = text ++ [Char.ofNat 10] ∧
      plainText text 24 := by
  obtain ⟨text, htext, hasc⟩ := asctime_four_digit t h1 h2
  obtain ⟨hy1, hy2⟩ := gmtime_year t h1 h2
  have hyr : -2147483648 ≤ (gmtime t).tm_year ∧ (gmtime t).tm_year ≤ 2147483647 := by omega
  have hlen : (text ++ [Char.ofNat 10]).length = 25 := by simp [htext.1]
  have hrep : List.replicate (114 - 25) (Char.ofNat 0)
      = Char.ofNat 0 :: List.replicate 88 (Char.ofNat 0) := rfl
  have hc : ctime t = some (text ++ Char.ofNat 10 :: Char.ofNat 0 ::
      List.replicate 88 (Char.ofNat 0)) := by
    simp only [ctime, hyr, and_self, if_true, hasc, hlen, hrep, List.append_assoc,
      List.singleton_append]
  exact ⟨_, text, hc, cstring_plainText htext _, htext⟩

end CPython

/-- On the concrete host, in the UTC time zone, every timestamp from
1000-01-01 00:00:00 to 9999-12-31 23:59:59 meets the condition of C8 as
amended: `dateStr` returns a new string object holding the calendar text of
`ctime` without its line terminator, 24 characters with no line terminator
among them. -/
theorem dateStr_utc_four_digit (s : State) (c v : Ptr) (rc rv : Int) (ty : PyTypeObject)
    (t : Int)
    (hc : s.deref c = some ⟨rc, ty, .container v⟩)
    (hv : s.deref v = some ⟨rv, .PyInt_Type, .int t⟩)
    (h1 : -30610224000 ≤ t) (h2 : t ≤ 253402300799) :
    ∃ p s' r, dateStr hostCPython c s = some (p, s') ∧
      s'.deref p = some ⟨1, .PyString_Type, .string r⟩ ∧ plainText r 24 ∧
      (hostCPython.ctime t).map cstring = some (r ++ [Char.ofNat 10]) := by
  obtain ⟨buf, text, hbuf, htext, hplain⟩ := CPython.ctime_four_digit t h1 h2
  have hbuf' : hostCPython.ctime t = some buf := hbuf
  obtain ⟨hstr, _⟩ := dateStr_conventional hc hv hbuf' htext hplain.1
  refine ⟨s.heap.length + 1, (PyObject_NEW s .PyString_Type (.string text)).2, text,
    hstr, deref_new s _ _, hplain, ?_⟩
  rw [hbuf', Option.map_some', htext]

/-! ## Concrete instances -/

/-- C1 on the byte string `AB\0CD` of `sRaw`. -/
theorem C1_constructed_kind_witness :
    sRaw.deref 2 = some ⟨1, .PyTuple_Type, .tuple [1]⟩ ∧
    sRaw.deref 1 = some ⟨1, .PyString_Type, .string bytesABCD⟩ ∧
    (hasKinds (makeDate 0 2 sRaw) true false false ∧
      hasKinds (makeRaw 0 2 sRaw) false true false ∧
      hasKinds (makeRowId 0 2 sRaw) false false true ∧
      hasKinds (dbiMakeDate 1 sRaw) true false false ∧
      hasKinds (dbiMakeRaw 1 sRaw) false true false ∧
      hasKinds (dbiMakeRowId 1 sRaw) false false true) :=
  ⟨rfl, rfl, C1_constructed_kind sRaw 0 2 1 1 _ rfl rfl⟩

/-- C2 on the byte string `AB\0CD` of `sRaw`, which holds a zero byte. -/
theorem C2_unwrap_constructed_witness :
    sRaw.deref 2 = some ⟨1, .PyTuple_Type, .tuple [1]⟩ ∧
    sRaw.deref 1 = some ⟨1, .PyString_Type, .string bytesABCD⟩ ∧
    (givesBack hostCPython 1 ⟨1, .PyString_Type, .string bytesABCD⟩ (makeDate 0 2 sRaw) ∧
      givesBack hostCPython 1 ⟨1, .PyString_Type, .string bytesABCD⟩ (makeRaw 0 2 sRaw) ∧
      givesBack hostCPython 1 ⟨1, .PyString_Type, .string bytesABCD⟩ (makeRowId 0 2 sRaw) ∧
      givesBack hostCPython 1 ⟨1, .PyString_Type, .string bytesABCD⟩ (dbiMakeDate 1 sRaw) ∧
      givesBack hostCPython 1 ⟨1, .PyString_Type, .string bytesABCD⟩ (dbiMakeRaw 1 sRaw) ∧
      givesBack hostCPython 1 ⟨1, .PyString_Type, .string bytesABCD⟩ (dbiMakeRowId 1 sRaw)) :=
  ⟨rfl, rfl, C2_unwrap_constructed hostCPython sRaw 0 2 1 1 _ rfl rfl⟩

/-- The scenario of the specification: `makeRaw` on `AB\0CD`, then the
attribute `value`, evaluated. -/
theorem makeRaw_value_eval :
    makeRaw 0 2 sRaw = some (3,
      ⟨[⟨2, .PyString_Type, .string bytesABCD⟩, ⟨1, .PyTuple_Type, .tuple [1]⟩,
        ⟨1, .DbiRaw_Type, .container 1⟩], none⟩) ∧
    dbiGetAttr hostCPython 3 "value"
      ⟨[⟨2, .PyString_Type, .string bytesABCD⟩, ⟨1, .PyTuple_Type, .tuple [1]⟩,
        ⟨1, .DbiRaw_Type, .container 1⟩], none⟩ = some (1,
      ⟨[⟨3, .PyString_Type, .string bytesABCD⟩, ⟨1, .PyTuple_Type, .tuple [1]⟩,
        ⟨1, .DbiRaw_Type, .container 1⟩], none⟩) := by
  decide

/-- C3 on the argument tuple of `sRaw`, which has one item. -/
theorem C3_exactly_one_argument_witness :
    sRaw.deref 2 = some ⟨1, .PyTuple_Type, .tuple [1]⟩ ∧
    (∀ v ∈ [1], (sRaw.deref v).isSome = true) ∧
    (oneArgument sRaw [1] .DbiDate_Type (makeDate 0 2 sRaw) ∧
      oneArgument sRaw [1] .DbiRaw_Type (makeRaw 0 2 sRaw)) :=
  ⟨rfl, by decide, C3_exactly_one_argument sRaw 0 2 1 [1] rfl (by decide)⟩

/-- Called with an empty argument tuple and with a tuple of two items,
`makeDate` returns `NULL` and sets `TypeError`. -/
theorem makeDate_wrong_arity_eval :
    makeDate 0 1 ⟨[⟨1, .PyTuple_Type, .tuple []⟩], none⟩ =
      some (NULL, ⟨[⟨1, .PyTuple_Type, .tuple []⟩], some .TypeError⟩) ∧
    makeDate 0 2 ⟨[⟨1, .PyInt_Type, .int 5⟩, ⟨1, .PyTuple_Type, .tuple [1, 1]⟩], none⟩ =
      some (NULL,
        ⟨[⟨1, .PyInt_Type, .int 5⟩, ⟨1, .PyTuple_Type, .tuple [1, 1]⟩], some .TypeError⟩) := by
  decide

/-- The two Raw containers of `sRawPair` are those `dbiMakeRaw` builds
around the two strings of `sRawPair0`. -/
theorem sRawPair_constructed :
    ((dbiMakeRaw 1 sRawPair0).bind fun r => dbiMakeRaw 2 r.2) = some (4, sRawPair) := by
  decide

/-- C4 on the two Raw containers of `sRawPair`, which wrap two strings with
the same bytes. -/
theorem C4_raw_str_witness :
    sRawPair.deref 3 = some ⟨1, .DbiRaw_Type, .container 1⟩ ∧
    sRawPair.deref 1 = some ⟨1, .PyString_Type, .string bytesABCD⟩ ∧
    sRawPair.deref 4 = some ⟨1, .DbiRaw_Type, .container 2⟩ ∧
    sRawPair.deref 2 = some ⟨1, .PyString_Type, .string bytesABCD⟩ ∧
    (dbi_tp_str hostCPython .DbiRaw_Type = some rawStr ∧
      (∃ s₁, rawStr 3 sRawPair = some (1, s₁) ∧
        s₁.deref 1 = some ⟨1 + 1, .PyString_Type, .string bytesABCD⟩) ∧
      (PyTypeObject.PyString_Type = PyTypeObject.PyString_Type →
        Body.string bytesABCD = Body.string bytesABCD →
        ∃ r₁ s₁ d₁ r₂ s₂ d₂, rawStr 3 sRawPair = some (r₁, s₁) ∧ s₁.deref r₁ = some d₁ ∧
          rawStr 4 sRawPair = some (r₂, s₂) ∧ s₂.deref r₂ = some d₂ ∧
          d₁.ob_type = d₂.ob_type ∧ d₁.body = d₂.body)) :=
  ⟨rfl, rfl, rfl, rfl,
    C4_raw_str hostCPython sRawPair 3 4 1 2 1 1 _ _ rfl rfl rfl rfl⟩

/-- Rendering the Raw container 3 of `sRawPair`, evaluated: `rawStr` returns
address 1, the wrapped string itself, with one more reference and the same
five bytes. -/
theorem rawStr_eval :
    (rawStr 3 sRawPair).map (fun r => (r.1, r.2.deref r.1))
      = some (1, some ⟨2, .PyString_Type, .string bytesABCD⟩) := by
  decide

/-- C5 on the `int` 5 of `sInt` and the number methods of `int` objects. -/
theorem C5_date_delegation_witness :
    sInt.deref 3 = some ⟨1, .PyTuple_Type, .tuple [1]⟩ ∧
    sInt.deref 1 = some ⟨1, .PyInt_Type, .int 5⟩ ∧
    (hostCPython.tp .PyInt_Type).tp_as_number = some CPython.int_as_number ∧
    ((∃ c s', makeDate 0 3 sInt = some (c, s') ∧
        delegates hostCPython CPython.int_as_number 1 c s') ∧
      (∃ c s', dbiMakeDate 1 sInt = some (c, s') ∧
        delegates hostCPython CPython.int_as_number 1 c s')) :=
  ⟨rfl, rfl, rfl, C5_date_delegation hostCPython sInt 0 3 1 1 _ _ rfl rfl rfl⟩

/-- The Date container around the `int` 5, evaluated on the concrete host:
adding the `int` 3 gives a new `int` 8, subtracting it a new `int` 2, the
octal and hexadecimal texts are `05` and `0x5`. -/
theorem date_arith_eval :
    dbiMakeDate 1 sInt = some (4, wrapped sInt .DbiDate_Type 1) ∧
    (dt_nb_add hostCPython 4 2 (wrapped sInt .DbiDate_Type 1)).map
      (fun r => (r.1, r.2.deref r.1)) = some (5, some ⟨1, .PyInt_Type, .int 8⟩) ∧
    (dt_nb_subtract hostCPython 4 2 (wrapped sInt .DbiDate_Type 1)).map
      (fun r => (r.1, r.2.deref r.1)) = some (5, some ⟨1, .PyInt_Type, .int 2⟩) ∧
    (dt_nb_int hostCPython 4 (wrapped sInt .DbiDate_Type 1)).map
      (fun r => (r.1, r.2.deref r.1)) = some (1, some ⟨2, .PyInt_Type, .int 5⟩) ∧
    (dt_nb_long hostCPython 4 (wrapped sInt .DbiDate_Type 1)).map
      (fun r => (r.1, r.2.deref r.1)) = some (5, some ⟨1, .PyLong_Type, .long 5⟩) ∧
    (dt_nb_oct hostCPython 4 (wrapped sInt .DbiDate_Type 1)).map
      (fun r => (r.1, r.2.deref r.1)) = some (5, some ⟨1, .PyString_Type, .string ['0', '5']⟩) ∧
    (dt_nb_hex hostCPython 4 (wrapped sInt .DbiDate_Type 1)).map
      (fun r => (r.1, r.2.deref r.1))
        = some (5, some ⟨1, .PyString_Type, .string ['0', 'x', '5']⟩) := by
  decide


/-- The four Date containers of `sCmp` are those `dbiMakeDate` builds, in
order, around the four `int` objects of `sCmp0`. -/
theorem sCmp_constructed :
    ((((dbiMakeDate 1 sCmp0).bind fun r => dbiMakeDate 2 r.2).bind
      fun r => dbiMakeDate 3 r.2).bind fun r => dbiMakeDate 4 r.2) = some (8, sCmp) := by
  decide

/-- C6, the code at a failing input.  `dt_cmp(a, b)` passes the containers
`a` and `b` themselves, not the wrapped values, to the comparison slot of
the wrapped value's type.  `int_compare` then reads the word after the
object header of each container, which is the address in `objectOf`.  The
Date containers 5 and 6 wrap two `int` objects that are both 1000:
`int_compare` on the wrapped values gives 0, `dt_cmp` on the containers
gives -1.  The Date containers 7 and 8 wrap the `int` objects 5 and 3:
`int_compare` on the wrapped values gives 1, `dt_cmp` gives -1. -/
theorem C6_dt_cmp_compares_containers :
    dbiValue sCmp 5 = some 1 ∧ dbiValue sCmp 6 = some 2 ∧
    CPython.int_compare 1 2 sCmp = some (0, sCmp) ∧
    dt_cmp hostCPython 5 6 sCmp = some (-1, sCmp) ∧
    dbiValue sCmp 7 = some 3 ∧ dbiValue sCmp 8 = some 4 ∧
    CPython.int_compare 3 4 sCmp = some (1, sCmp) ∧
    dt_cmp hostCPython 7 8 sCmp = some (-1, sCmp) := by
  decide

/-- C7 on the Date container 4 of `sCoerce` and the `int` 7 as second
operand. -/
theorem C7_coerce_witness :
    sCoerce.deref 4 = some ⟨1, .DbiDate_Type, .container 1⟩ ∧
    hostCPython.PyNumber_Check sCoerce 2 = true ∧
    ((hostCPython.PyNumber_Check sCoerce 2 = true →
      ∃ r s2 s', hostCPython.PyNumber_Int 2
          (PyObject_NEW sCoerce .DbiDate_Type (.container NULL)).2 = some (r, s2) ∧
        dt_nb_coerce hostCPython 4 2 sCoerce = some (0, 4, sCoerce.heap.length + 1, s') ∧
        sCoerce.deref (sCoerce.heap.length + 1) = none ∧
        dbiIsDate s' (sCoerce.heap.length + 1) = some true ∧
        dbiValue s' (sCoerce.heap.length + 1) = some r ∧
        s'.err = s2.err) ∧
    (hostCPython.PyNumber_Check sCoerce 2 = false →
      dt_nb_coerce hostCPython 4 2 sCoerce = some (1, 4, 2, sCoerce)) ∧
    (∃ res, dt_nb_coerce hostCPython 4 2 sCoerce = some res ∧
      (res.1 = 0 ↔ hostCPython.PyNumber_Check sCoerce 2 = true))) :=
  ⟨rfl, rfl, C7_coerce hostCPython sCoerce 4 2 _ rfl
    (fun _ => ⟨2, (PyObject_NEW sCoerce .DbiDate_Type (.container NULL)).2.store 2
      ⟨2, .PyInt_Type, .int 7⟩, by decide, by decide, by decide⟩)⟩

/-- Coercion evaluated on the concrete host.  The Date container 4 of
`sCoerce` is the one `dbiMakeDate` builds around the `int` 0.  With the
`int` 7 as second operand `dt_nb_coerce` returns 0 and the second operand
becomes the new Date container 5 around the `int` 7 (address 2, the same
object, as `int_int` returns its argument).  With a string as second
operand it returns 1 and nothing changes. -/
theorem dt_nb_coerce_eval :
    dbiMakeDate 1 sCoerce0 = some (4, sCoerce) ∧
    dt_nb_coerce hostCPython 4 2 sCoerce = some (0, 4, 5,
      ⟨[⟨1, .PyInt_Type, .int 0⟩, ⟨2, .PyInt_Type, .int 7⟩,
        ⟨1, .PyString_Type, .string bytesABCD⟩, ⟨2, .DbiDate_Type, .container 1⟩,
        ⟨1, .DbiDate_Type, .container 2⟩], none⟩) ∧
    hostCPython.PyNumber_Check sCoerce 3 = false ∧
    dt_nb_coerce hostCPython 4 3 sCoerce = some (1, 4, 3, sCoerce) := by
  decide

/-- C10, the code at a failing input.  The Date container 3 of `sBig` is
the one `dbiMakeDate` builds around the `int` 0; the second operand is the
`long` object `2 ^ 100` at address 2.  It is numeric, its integer
conversion fails (`PyNumber_Int` returns `NULL` and sets `OverflowError`),
and `dt_nb_coerce` still returns 0 and stores as second operand the new
Date container 4, whose wrapped value is `NULL`. -/
theorem C10_coerce_stores_null :
    dbiMakeDate 1 sBig0 = some (3, sBig) ∧
    hostCPython.PyNumber_Check sBig 2 = true ∧
    (hostCPython.PyNumber_Int 2 (PyObject_NEW sBig .DbiDate_Type (.container NULL)).2).map
      (fun r => (r.1, r.2.err)) = some (NULL, some .OverflowError) ∧
    dt_nb_coerce hostCPython 3 2 sBig = some (0, 3, 4, sBigCoerced) ∧
    dbiIsDate sBigCoerced 4 = some true ∧
    dbiValue sBigCoerced 4 = some NULL := by
  decide

/-- C8, the claim at a failing input.  The Date container 2 of `sOld` is the
one `dbiMakeDate` builds around the `int` timestamp of 0999-01-01 00:00:00
UTC.  The calendar text of `ctime` for it has 24 characters, the last one
the line terminator, since the year has three digits.  `dateStr` returns
the new string object 3 with those 24 characters: the rendered string has
length 24 and is the first 24 characters of the calendar text, but it ends
in the line terminator. -/
theorem C8_dateStr_keeps_newline :
    dbiMakeDate 1 sOld0 = some (2, sOld) ∧
    dbiIsDate sOld 2 = some true ∧
    dbiValue sOld 2 = some 1 ∧
    sOld.deref 1 = some ⟨1, .PyInt_Type, .int year999⟩ ∧
    (hostCPython.ctime year999).map cstring = some "Tue Jan  1 00:00:00 999\n".data ∧
    (dateStr hostCPython 2 sOld).map (fun r => (r.1, r.2.deref r.1))
      = some (3, some ⟨1, .PyString_Type, .string "Tue Jan  1 00:00:00 999\n".data⟩) ∧
    "Tue Jan  1 00:00:00 999\n".data.length = 24 ∧
    "Tue Jan  1 00:00:00 999\n".data.getLast? = some (Char.ofNat 10) := by
  decide

/-- C8, amended, on the Date container around the timestamp 0: the scenario
of the specification.  The rendered string is the epoch's calendar text
without its line terminator. -/
theorem C8_dateStr_conventional_witness :
    sEpoch.deref 2 = some ⟨1, .DbiDate_Type, .container 1⟩ ∧
    sEpoch.deref 1 = some ⟨1, .PyInt_Type, .int 0⟩ ∧
    hostCPython.ctime 0 = some ("Thu Jan  1 00:00:00 1970\n".data ++
      List.replicate 89 (Char.ofNat 0)) ∧
    cstring ("Thu Jan  1 00:00:00 1970\n".data ++ List.replicate 89 (Char.ofNat 0))
      = "Thu Jan  1 00:00:00 1970".data ++ [Char.ofNat 10] ∧
    "Thu Jan  1 00:00:00 1970".data.length = 24 ∧
    Char.ofNat 10 ∉ "Thu Jan  1 00:00:00 1970".data ∧
    (∃ p s' r, dateStr hostCPython 2 sEpoch = some (p, s') ∧ sEpoch.deref p = none ∧
      s'.deref p = some ⟨1, .PyString_Type, .string r⟩ ∧
      r.length = 24 ∧ Char.ofNat 10 ∉ r ∧
      r = (cstring ("Thu Jan  1 00:00:00 1970\n".data ++
        List.replicate 89 (Char.ofNat 0))).take 24) :=
  ⟨rfl, rfl, by decide, by decide, by decide, by decide,
    C8_dateStr_conventional hostCPython sEpoch 2 1 1 1 0
      ("Thu Jan  1 00:00:00 1970\n".data ++ List.replicate 89 (Char.ofNat 0))
      "Thu Jan  1 00:00:00 1970".data rfl rfl
      (by decide) (by decide) (by decide) (by decide)⟩

/-- The Date container around the timestamp 0, evaluated: `dateStr` returns
the new string object 3 holding `Thu Jan  1 00:00:00 1970`. -/
theorem dateStr_epoch_eval :
    (dateStr hostCPython 2 sEpoch).map (fun r => (r.1, r.2.deref r.1))
      = some (3, some ⟨1, .PyString_Type, .string "Thu Jan  1 00:00:00 1970".data⟩) := by
  decide

/-- C9, the claim at a failing input.  The Raw container 2 of `sList` is the
one `dbiMakeRaw` builds around a list object.  The wrapped value's own
attribute resolution finds `append` and returns a new method object;
`dbiGetAttr` on the container returns `NULL` and sets `AttributeError`. -/
theorem C9_getattr_not_forwarded :
    dbiMakeRaw 1 sList0 = some (2, sList) ∧
    dbiIsRaw sList 2 = some true ∧ dbiValue sList 2 = some 1 ∧
    "append" ≠ "value" ∧
    PyObject_GetAttrString hostCPython 1 "append" sList = some (3,
      ⟨[⟨2, .PyList_Type, .list []⟩, ⟨1, .DbiRaw_Type, .container 1⟩,
        ⟨1, .PyCFunction_Type, .cfunction "append" 1⟩], none⟩) ∧
    dbiGetAttr hostCPython 2 "append" sList =
      some (NULL, PyErr_SetString sList .AttributeError) ∧
    dbiGetAttr hostCPython 2 "append" sList ≠
      PyObject_GetAttrString hostCPython 1 "append" sList := by
  decide

/-- C9, amended, on the Raw container around a list and the name `append`. -/
theorem C9_getattr_own_table_witness :
    "append" ≠ "value" ∧
    (dbiGetAttr hostCPython 2 "append" sList =
        Py_FindMethod hostCPython noMethods 2 "append" sList ∧
      ("append" = "__methods__" →
        dbiGetAttr hostCPython 2 "append" sList = hostCPython.listmethods noMethods sList) ∧
      ("append" ≠ "__methods__" →
        dbiGetAttr hostCPython 2 "append" sList =
          some (NULL, PyErr_SetString sList .AttributeError))) :=
  ⟨by decide, C9_getattr_own_table hostCPython sList 2 "append" (by decide)⟩

/-- The attribute `__methods__` of the Raw container 2 of `sList`,
evaluated: a new, empty list object at address 3. -/
theorem dbiGetAttr_methods_eval :
    (dbiGetAttr hostCPython 2 "__methods__" sList).map (fun r => (r.1, r.2.deref r.1))
      = some (3, some ⟨1, .PyList_Type, .list []⟩) := by
  decide

end Dbi
